import Mathlib

/-!
RZ/G3S (R9A08G045) clock descriptor tables and the HX8394-F panel driver.

A shallow embedding of two C files.  From `drivers/clk/renesas/r9a08g045-cpg.c`:
the divider and mux lookup tables, the core clock table, the module clock
table, the reset table and the list of critical module clocks, followed by the
properties of these tables.  From `drivers/gpu/drm/panel/panel-rocktech-hx8394f.c`:
the four panel operations as functions from the driver context and the answers
of the regulator and DSI services to a return value, a new context and the
list of calls made.

The numeric values of the `R9A08G045_*` identifiers come from the device-tree
binding header `dt-bindings/clock/r9a08g045-cpg.h`; they are not fixed here and
enter the development as a parameter (`dt_bindings`).  Every table entry is
kept in the shape in which the C file writes it: one constructor per `DEF_*`
form, with the arguments in source order.
-/

namespace panel_hx8394f

/-! ## The HX8394-F panel driver -/

def UD_SETADDRESSMODE : Nat := 0x36

def UD_SETPOWER : Nat := 0xB1

def UD_SETDISP : Nat := 0xB2

def UD_SETCYC : Nat := 0xB4

def UD_SETVCOM : Nat := 0xB6

def UD_SETEXTC : Nat := 0xB9

def UD_SETMIPI : Nat := 0xBA

def UD_SETREGBANK : Nat := 0xBD

def UD_SETPANEL : Nat := 0xCC

def UD_SETGIP0 : Nat := 0xD3

def UD_SETGIP1 : Nat := 0xD5

def UD_SETGIP2 : Nat := 0xD6

def UD_SETGAMMA : Nat := 0xE0

/-- The driver context `struct hx8394`.  Pointers are kept as handles; a null
`reset_gpio` is `none`.  The embedded `struct drm_panel`, which the four panel
operations never touch, is left out. -/
structure hx8394 where
  dev : Nat
  reset_gpio : Option Nat
  vcc : Nat
  iovcc : Nat
  prepared : Bool
  enabled : Bool
  deriving DecidableEq

/-- One call into the regulator, GPIO, delay or DSI services, with the return
code where the service has one.  Diagnostic messages (`dev_err`, `dev_warn`)
are not recorded: they reach neither the panel nor the driver context. -/
inductive hw_call
  | regulator_enable (reg : Nat) (ret : Int)
  | regulator_disable (reg : Nat) (ret : Int)
  | gpiod_set_value_cansleep (gpio : Nat) (value : Nat)
  | msleep (ms : Nat)
  | mipi_dsi_dcs_write_buffer (data : List Nat) (ret : Int)
  | mipi_dsi_dcs_exit_sleep_mode (ret : Int)
  | mipi_dsi_dcs_set_display_on (ret : Int)
  | mipi_dsi_dcs_set_display_off (ret : Int)
  | mipi_dsi_dcs_enter_sleep_mode (ret : Int)
  deriving DecidableEq

open hw_call

/-- What the services answer during one panel operation: the return code of
each fallible call; `dcs_write_buffer i` answers the write of the `i`-th buffer
of the init sequence. -/
structure hw_outcomes where
  regulator_enable : Int
  regulator_disable : Int
  dcs_write_buffer : Nat → Int
  exit_sleep_mode : Int
  set_display_on : Int
  set_display_off : Int
  enter_sleep_mode : Int

/-- The outcome of a panel operation: its return value, the driver context it
leaves, and the calls it made, in order. -/
structure op_result where
  ret : Int
  ctx : hx8394
  calls : List hw_call
  deriving DecidableEq

/-- The local array `mipi_data` of `hx8394f_init_sequence` after the assignment
`mipi_data[1] = 0x60 | 3`. -/
def mipi_data : List Nat :=
  [UD_SETMIPI, 0x60, 0x03, 0x68, 0x6B, 0xB2, 0xC0].set 1 (0x60 ||| 3)

/-- The buffers `hx8394f_init_sequence` writes, in order: one per
`dcs_write_seq` statement, and `mipi_data`. -/
def init_buffers : List (List Nat) := [
  [UD_SETADDRESSMODE, 0x02],
  [UD_SETEXTC, 0xFF, 0x83, 0x94],
  mipi_data,
  [UD_SETPOWER, 0x48, 0x12, 0x72, 0x09, 0x32, 0x54, 0x71, 0x71, 0x57, 0x47],
  [UD_SETDISP, 0x00, 0x80, 0x64, 0x15, 0x0E, 0x11],
  [UD_SETCYC, 0x73, 0x74, 0x73, 0x74, 0x73, 0x74, 0x01, 0x0C, 0x86, 0x75, 0x00, 0x3F, 0x73,
   0x74, 0x73, 0x74, 0x73, 0x74, 0x01, 0x0C, 0x86],
  [UD_SETGIP0, 0x00, 0x00, 0x07, 0x07, 0x40, 0x07, 0x0C, 0x00, 0x08, 0x10, 0x08, 0x00, 0x08,
   0x54, 0x15, 0x0A, 0x05, 0x0A, 0x02, 0x15, 0x06, 0x05, 0x06, 0x47, 0x44, 0x0A, 0x0A, 0x4B,
   0x10, 0x07, 0x07, 0x0C, 0x40],
  [UD_SETGIP1, 0x1C, 0x1C, 0x1D, 0x1D, 0x00, 0x01, 0x02, 0x03, 0x04, 0x05, 0x06, 0x07, 0x08,
   0x09, 0x0A, 0x0B, 0x24, 0x25, 0x18, 0x18, 0x26, 0x27, 0x18, 0x18, 0x18, 0x18, 0x18, 0x18,
   0x18, 0x18, 0x18, 0x18, 0x18, 0x18, 0x18, 0x18, 0x18, 0x18, 0x20, 0x21, 0x18, 0x18, 0x18,
   0x18],
  [UD_SETGIP2, 0x1C, 0x1C, 0x1D, 0x1D, 0x07, 0x06, 0x05, 0x04, 0x03, 0x02, 0x01, 0x00, 0x0B,
   0x0A, 0x09, 0x08, 0x21, 0x20, 0x18, 0x18, 0x27, 0x26, 0x18, 0x18, 0x18, 0x18, 0x18, 0x18,
   0x18, 0x18, 0x18, 0x18, 0x18, 0x18, 0x18, 0x18, 0x18, 0x18, 0x25, 0x24, 0x18, 0x18, 0x18,
   0x18],
  [UD_SETVCOM, 0x92, 0x92],
  [UD_SETGAMMA, 0x00, 0x0A, 0x15, 0x1B, 0x1E, 0x21, 0x24, 0x22, 0x47, 0x56, 0x65, 0x66,
   0x6E, 0x82, 0x88, 0x8B, 0x9A, 0x9D, 0x98, 0xA8, 0xB9, 0x5D, 0x5C, 0x61, 0x66, 0x6A, 0x6F,
   0x7F, 0x7F, 0x00, 0x0A, 0x15, 0x1B, 0x1E, 0x21, 0x24, 0x22, 0x47, 0x56, 0x65, 0x65, 0x6E,
   0x81, 0x87, 0x8B, 0x98, 0x9D, 0x99, 0xA8, 0xBA, 0x5D, 0x5D, 0x62, 0x67, 0x6B, 0x72, 0x7F,
   0x7F],
  [0xC0, 0x1F, 0x31],
  [UD_SETPANEL, 0x03],
  [0xD4, 0x02],
  [UD_SETREGBANK, 0x02],
  [0xD8, 0xFF, 0xFF, 0xFF, 0xFF, 0xFF, 0xFF, 0xFF, 0xFF, 0xFF, 0xFF, 0xFF, 0xFF],
  [UD_SETREGBANK, 0x00],
  [UD_SETREGBANK, 0x01],
  [UD_SETPOWER, 0x00],
  [UD_SETREGBANK, 0x00],
  [0xBF, 0x40, 0x81, 0x50, 0x00, 0x1A, 0xFC, 0x01],
  [0xC6, 0xED]
]

/-- The function `hx8394_dcs_write_buf`: one buffer write whose error, when
there is one, is reported and dropped. -/
def hx8394_dcs_write_buf (err : Int) (data : List Nat) : List hw_call :=
  [mipi_dsi_dcs_write_buffer data err]

/-- The function `hx8394f_init_sequence`: the buffers of `init_buffers` written
one after the other, whatever the writes return. -/
def hx8394f_init_sequence (o : hw_outcomes) : List hw_call :=
  (List.range init_buffers.length).flatMap fun i =>
    hx8394_dcs_write_buf (o.dcs_write_buffer i) (init_buffers.getD i [])

def hx8394_disable (ctx : hx8394) : op_result :=
  if ctx.enabled = false then
    ⟨0, ctx, []⟩
  else
    ⟨0, { ctx with enabled := false }, []⟩

def hx8394_unprepare (o : hw_outcomes) (ctx : hx8394) : op_result :=
  if ctx.prepared = false then
    ⟨0, ctx, []⟩
  else
    let calls := [mipi_dsi_dcs_set_display_off o.set_display_off]
    let calls := calls ++ [mipi_dsi_dcs_enter_sleep_mode o.enter_sleep_mode]
    let calls := calls ++ [msleep 120]
    let calls := calls ++
      (match ctx.reset_gpio with
       | some gpio => [gpiod_set_value_cansleep gpio 1, msleep 20]
       | none => [])
    let calls := calls ++ [hw_call.regulator_disable ctx.vcc o.regulator_disable]
    ⟨0, { ctx with prepared := false }, calls⟩

def hx8394_prepare (o : hw_outcomes) (ctx : hx8394) : op_result :=
  if ctx.prepared = true then
    ⟨0, ctx, []⟩
  else
    let ret := o.regulator_enable
    let calls := [hw_call.regulator_enable ctx.vcc ret]
    if ret < 0 then
      ⟨ret, ctx, calls⟩
    else
      let calls := calls ++
        (match ctx.reset_gpio with
         | some gpio =>
           [gpiod_set_value_cansleep gpio 1, msleep 20,
            gpiod_set_value_cansleep gpio 0, msleep 100]
         | none => [])
      let calls := calls ++ hx8394f_init_sequence o
      let ret := o.exit_sleep_mode
      let calls := calls ++ [mipi_dsi_dcs_exit_sleep_mode ret]
      if ret ≠ 0 then
        ⟨ret, ctx, calls⟩
      else
        let calls := calls ++ [msleep 125]
        let ret := o.set_display_on
        let calls := calls ++ [mipi_dsi_dcs_set_display_on ret]
        if ret ≠ 0 then
          ⟨ret, ctx, calls⟩
        else
          let calls := calls ++ [msleep 20]
          ⟨0, { ctx with prepared := true }, calls⟩

def hx8394_enable (ctx : hx8394) : op_result :=
  if ctx.enabled = true then
    ⟨0, ctx, []⟩
  else
    ⟨0, { ctx with enabled := true }, []⟩

/-- The four operations of `hx8394_drm_funcs` that act on the panel. -/
inductive panel_op
  | disable
  | unprepare
  | prepare
  | enable
  deriving DecidableEq

/-- One call of a panel operation, through `hx8394_drm_funcs`. -/
def run_op : panel_op → hw_outcomes → hx8394 → op_result
  | panel_op.disable, _, ctx => hx8394_disable ctx
  | panel_op.unprepare, o, ctx => hx8394_unprepare o ctx
  | panel_op.prepare, o, ctx => hx8394_prepare o ctx
  | panel_op.enable, _, ctx => hx8394_enable ctx

/-- A sequence of panel operations, each with the answers the services give
during it: the final driver context and all calls made, in order. -/
def run_ops : List (panel_op × hw_outcomes) → hx8394 → hx8394 × List hw_call
  | [], ctx => (ctx, [])
  | (op, o) :: rest, ctx =>
    let r := run_op op o ctx
    let s := run_ops rest r.ctx
    (s.1, r.calls ++ s.2)

/-- The number of outstanding enables of the regulator `reg` after the calls:
enables that did not return an error, less disables that did not return an
error. -/
def outstanding_enables (reg : Nat) : List hw_call → Int
  | [] => 0
  | hw_call.regulator_enable r ret :: cs =>
    (if r = reg ∧ 0 ≤ ret then 1 else 0) + outstanding_enables reg cs
  | hw_call.regulator_disable r ret :: cs =>
    outstanding_enables reg cs - (if r = reg ∧ 0 ≤ ret then 1 else 0)
  | _ :: cs => outstanding_enables reg cs

/-- The calls of a prepare operation in which every step is reached: power,
reset pulse (with a reset GPIO), init sequence, exit sleep, display on. -/
def prepare_steps (o : hw_outcomes) (ctx : hx8394) : List hw_call :=
  [hw_call.regulator_enable ctx.vcc o.regulator_enable] ++
  (match ctx.reset_gpio with
   | some gpio =>
     [gpiod_set_value_cansleep gpio 1, msleep 20,
      gpiod_set_value_cansleep gpio 0, msleep 100]
   | none => []) ++
  hx8394f_init_sequence o ++
  [mipi_dsi_dcs_exit_sleep_mode o.exit_sleep_mode, msleep 125,
   mipi_dsi_dcs_set_display_on o.set_display_on, msleep 20]

/-- A call with its return code blanked: what was called, not what it
answered. -/
def hw_call.kind : hw_call → hw_call
  | hw_call.regulator_enable reg _ => hw_call.regulator_enable reg 0
  | hw_call.regulator_disable reg _ => hw_call.regulator_disable reg 0
  | mipi_dsi_dcs_write_buffer data _ => mipi_dsi_dcs_write_buffer data 0
  | mipi_dsi_dcs_exit_sleep_mode _ => mipi_dsi_dcs_exit_sleep_mode 0
  | mipi_dsi_dcs_set_display_on _ => mipi_dsi_dcs_set_display_on 0
  | mipi_dsi_dcs_set_display_off _ => mipi_dsi_dcs_set_display_off 0
  | mipi_dsi_dcs_enter_sleep_mode _ => mipi_dsi_dcs_enter_sleep_mode 0
  | c => c

/-- Answers in which every call succeeds. -/
def all_ok : hw_outcomes where
  regulator_enable := 0
  regulator_disable := 0
  dcs_write_buffer := fun _ => 0
  exit_sleep_mode := 0
  set_display_on := 0
  set_display_off := 0
  enter_sleep_mode := 0

/-- Answers in which the regulator comes up and leaving sleep mode fails with
`-EIO` (-5). -/
def exit_sleep_fails : hw_outcomes where
  regulator_enable := 0
  regulator_disable := 0
  dcs_write_buffer := fun _ => 0
  exit_sleep_mode := -5
  set_display_on := 0
  set_display_off := 0
  enter_sleep_mode := 0

/-- A freshly probed panel: not prepared, not enabled, with a reset GPIO. -/
def fresh_panel : hx8394 where
  dev := 1
  reset_gpio := some 2
  vcc := 3
  iovcc := 0
  prepared := false
  enabled := false

end panel_hx8394f

namespace R9A08G045

/-! ## Identifiers -/

/-- Core clock identifiers of the binding header that the C file refers to
(`R9A08G045_CLK_I` and so on). -/
inductive dt_core_clk
  | R9A08G045_CLK_I
  | R9A08G045_CLK_S0
  | R9A08G045_CLK_SPI0
  | R9A08G045_CLK_SPI1
  | R9A08G045_CLK_SD0
  | R9A08G045_CLK_SD1
  | R9A08G045_CLK_SD2
  | R9A08G045_CLK_M0
  | R9A08G045_CLK_HP
  | R9A08G045_CLK_TSU
  | R9A08G045_CLK_ZT
  | R9A08G045_CLK_P0
  | R9A08G045_CLK_P1
  | R9A08G045_CLK_P2
  | R9A08G045_CLK_P3
  | R9A08G045_CLK_P4
  | R9A08G045_CLK_P5
  | R9A08G045_OSCCLK
  | R9A08G045_OSCCLK2
  | R9A08G045_CLK_CANFD
  deriving DecidableEq

/-- Module clock identifiers of the binding header that the C file refers to. -/
inductive dt_mod_clk
  | R9A08G045_GIC600_GICCLK | R9A08G045_IA55_PCLK | R9A08G045_IA55_CLK | R9A08G045_DMAC_ACLK
  | R9A08G045_DMAC_PCLK | R9A08G045_OSTM0_PCLK | R9A08G045_OSTM1_PCLK | R9A08G045_OSTM2_PCLK
  | R9A08G045_OSTM3_PCLK | R9A08G045_OSTM4_PCLK | R9A08G045_OSTM5_PCLK | R9A08G045_OSTM6_PCLK
  | R9A08G045_OSTM7_PCLK | R9A08G045_MTU_X_MCK_MTU3 | R9A08G045_POE3_CLKM_POE | R9A08G045_GPT_PCLK
  | R9A08G045_POEG_A_CLKP | R9A08G045_POEG_B_CLKP | R9A08G045_POEG_C_CLKP | R9A08G045_POEG_D_CLKP
  | R9A08G045_WDT0_PCLK | R9A08G045_WDT0_CLK | R9A08G045_SPI_HCLK | R9A08G045_SPI_ACLK
  | R9A08G045_SPI_CLK | R9A08G045_SPI_CLKX2 | R9A08G045_SDHI0_IMCLK | R9A08G045_SDHI0_IMCLK2
  | R9A08G045_SDHI0_CLK_HS | R9A08G045_SDHI0_ACLK | R9A08G045_SDHI1_IMCLK | R9A08G045_SDHI1_IMCLK2
  | R9A08G045_SDHI1_CLK_HS | R9A08G045_SDHI1_ACLK | R9A08G045_SDHI2_IMCLK | R9A08G045_SDHI2_IMCLK2
  | R9A08G045_SDHI2_CLK_HS | R9A08G045_SDHI2_ACLK | R9A08G045_SSI0_PCLK2 | R9A08G045_SSI0_PCLK_SFR
  | R9A08G045_SSI1_PCLK2 | R9A08G045_SSI1_PCLK_SFR | R9A08G045_SSI2_PCLK2 | R9A08G045_SSI2_PCLK_SFR
  | R9A08G045_SSI3_PCLK2 | R9A08G045_SSI3_PCLK_SFR | R9A08G045_SRC_CLKP | R9A08G045_USB_U2H0_HCLK
  | R9A08G045_USB_U2H1_HCLK | R9A08G045_USB_U2P_EXR_CPUCLK | R9A08G045_USB_PCLK
  | R9A08G045_ETH0_CLK_AXI | R9A08G045_ETH0_CLK_CHI | R9A08G045_ETH0_REFCLK
  | R9A08G045_ETH1_CLK_AXI | R9A08G045_ETH1_CLK_CHI | R9A08G045_ETH1_REFCLK
  | R9A08G045_I2C0_PCLK | R9A08G045_I2C1_PCLK | R9A08G045_I2C2_PCLK | R9A08G045_I2C3_PCLK
  | R9A08G045_SCIF0_CLK_PCK | R9A08G045_SCIF1_CLK_PCK | R9A08G045_SCIF2_CLK_PCK
  | R9A08G045_SCIF3_CLK_PCK | R9A08G045_SCIF4_CLK_PCK | R9A08G045_SCIF5_CLK_PCK
  | R9A08G045_SCI0_CLKP | R9A08G045_SCI1_CLKP | R9A08G045_RSPI0_CLKB | R9A08G045_RSPI1_CLKB
  | R9A08G045_RSPI2_CLKB | R9A08G045_RSPI3_CLKB | R9A08G045_RSPI4_CLKB | R9A08G045_CANFD_PCLK
  | R9A08G045_CANFD_CLK_RAM | R9A08G045_GPIO_HCLK | R9A08G045_ADC_ADCLK | R9A08G045_ADC_PCLK
  | R9A08G045_TSU_PCLK | R9A08G045_PCI_ACLK | R9A08G045_PCI_CLKL1PM | R9A08G045_SPDIF_PCLK
  | R9A08G045_I3C_TCLK | R9A08G045_I3C_PCLK | R9A08G045_VBAT_BCLK
  deriving DecidableEq

/-- The values the binding header gives to the identifiers: `core c` is the
number behind the core clock name `c`, `mod m` the number behind the module
clock name `m`. -/
structure dt_bindings where
  core : dt_core_clk → Nat
  mod : dt_mod_clk → Nat

/-- The clock-naming enumerators of `enum clk_ids`, from `CLK_EXTAL` to
`CLK_SD2_DIV4`, in declaration order.  The two boundary enumerators
`LAST_DT_CORE_CLK` and `MOD_CLK_BASE` name no clock and are numbers below. -/
inductive clk_ids
  | CLK_EXTAL
  | CLK_OSC_DIV1000
  | CLK_PLL1
  | CLK_PLL2
  | CLK_PLL2_DIV2
  | CLK_PLL2_DIV2_8
  | CLK_PLL2_DIV6
  | CLK_PLL3
  | CLK_PLL3_DIV2
  | CLK_PLL3_DIV2_2
  | CLK_PLL3_DIV2_4
  | CLK_PLL3_DIV2_8
  | CLK_PLL3_DIV6
  | CLK_PLL4
  | CLK_PLL6
  | CLK_PLL6_DIV2
  | CLK_SEL_SDHI0
  | CLK_SEL_SDHI1
  | CLK_SEL_SDHI2
  | CLK_SEL_SPI
  | CLK_SEL_PLL4
  | CLK_P1_DIV2
  | CLK_P3_DIV2
  | CLK_P4_DIV2
  | CLK_SD0_DIV4
  | CLK_SD1_DIV4
  | CLK_SD2_DIV4
  deriving DecidableEq

open dt_core_clk dt_mod_clk clk_ids

/-- First enumerator of `enum clk_ids`: `LAST_DT_CORE_CLK = R9A08G045_CLK_CANFD`. -/
def LAST_DT_CORE_CLK (h : dt_bindings) : Nat := h.core R9A08G045_CLK_CANFD

/-- Value of a clock-naming enumerator: a C enumerator without initialiser is
its predecessor plus one, so `CLK_EXTAL = LAST_DT_CORE_CLK + 1`, and so on. -/
def clk_ids.val (h : dt_bindings) : clk_ids → Nat
  | CLK_EXTAL => LAST_DT_CORE_CLK h + 1
  | CLK_OSC_DIV1000 => LAST_DT_CORE_CLK h + 2
  | CLK_PLL1 => LAST_DT_CORE_CLK h + 3
  | CLK_PLL2 => LAST_DT_CORE_CLK h + 4
  | CLK_PLL2_DIV2 => LAST_DT_CORE_CLK h + 5
  | CLK_PLL2_DIV2_8 => LAST_DT_CORE_CLK h + 6
  | CLK_PLL2_DIV6 => LAST_DT_CORE_CLK h + 7
  | CLK_PLL3 => LAST_DT_CORE_CLK h + 8
  | CLK_PLL3_DIV2 => LAST_DT_CORE_CLK h + 9
  | CLK_PLL3_DIV2_2 => LAST_DT_CORE_CLK h + 10
  | CLK_PLL3_DIV2_4 => LAST_DT_CORE_CLK h + 11
  | CLK_PLL3_DIV2_8 => LAST_DT_CORE_CLK h + 12
  | CLK_PLL3_DIV6 => LAST_DT_CORE_CLK h + 13
  | CLK_PLL4 => LAST_DT_CORE_CLK h + 14
  | CLK_PLL6 => LAST_DT_CORE_CLK h + 15
  | CLK_PLL6_DIV2 => LAST_DT_CORE_CLK h + 16
  | CLK_SEL_SDHI0 => LAST_DT_CORE_CLK h + 17
  | CLK_SEL_SDHI1 => LAST_DT_CORE_CLK h + 18
  | CLK_SEL_SDHI2 => LAST_DT_CORE_CLK h + 19
  | CLK_SEL_SPI => LAST_DT_CORE_CLK h + 20
  | CLK_SEL_PLL4 => LAST_DT_CORE_CLK h + 21
  | CLK_P1_DIV2 => LAST_DT_CORE_CLK h + 22
  | CLK_P3_DIV2 => LAST_DT_CORE_CLK h + 23
  | CLK_P4_DIV2 => LAST_DT_CORE_CLK h + 24
  | CLK_SD0_DIV4 => LAST_DT_CORE_CLK h + 25
  | CLK_SD1_DIV4 => LAST_DT_CORE_CLK h + 26
  | CLK_SD2_DIV4 => LAST_DT_CORE_CLK h + 27

/-- Last enumerator of `enum clk_ids`, one past `CLK_SD2_DIV4`. -/
def MOD_CLK_BASE (h : dt_bindings) : Nat := LAST_DT_CORE_CLK h + 28

/-- An identifier in the core clock number space, as the tables write it:
either a name of the binding header or an enumerator of `enum clk_ids`. -/
inductive core_id
  | dt (c : dt_core_clk)
  | enumerator (k : clk_ids)
  deriving DecidableEq

instance : Coe dt_core_clk core_id := ⟨core_id.dt⟩

instance : Coe clk_ids core_id := ⟨core_id.enumerator⟩

/-- Number behind a core clock identifier. -/
def core_id.val (h : dt_bindings) : core_id → Nat
  | dt c => h.core c
  | enumerator k => k.val h

/-- Two identifiers denote the same clock when their numbers agree. -/
def same_id (h : dt_bindings) (a b : core_id) : Bool := decide (a.val h = b.val h)

/-! ## Lookup tables -/

/-- One `struct clk_div_table` initialiser `{ val, div }`. -/
structure clk_div_table where
  val : Nat
  div : Nat
  deriving DecidableEq

def dtable_1_2 : List clk_div_table :=
  [ ⟨0, 1⟩, ⟨1, 2⟩, ⟨0, 0⟩ ]

def dtable_1_8 : List clk_div_table :=
  [ ⟨0, 1⟩, ⟨1, 2⟩, ⟨2, 4⟩, ⟨3, 8⟩, ⟨0, 0⟩ ]

def dtable_1_32 : List clk_div_table :=
  [ ⟨0, 1⟩, ⟨1, 2⟩, ⟨2, 4⟩, ⟨3, 8⟩, ⟨4, 32⟩, ⟨0, 0⟩ ]

def sel_sdhi : List String := [".pll2_div2", ".pll6", ".pll2_div6"]

def sel_spi_octa : List String := [".pll3_div2_2", ".pll3_div6", ".pll6_div2"]

def sel_pll4 : List String := [".osc_div1000", ".pll4"]

def mtable_sd : List Nat := [0, 2, 3]

def mtable_pll4 : List Nat := [0, 1]

/-! ## Register fields -/

def G3S_CPG_PL2_DDIV : Nat := 0x204

def G3S_CPG_SDHI_DDIV : Nat := 0x218

def G3S_CPG_SPI_DDIV : Nat := 0x220

def G3S_CPG_PLL_DSEL : Nat := 0x240

def G3S_CPG_SDHI_DSEL : Nat := 0x244

def G3S_CPG_SPI_SSEL : Nat := 0x404

def G3S_CLKDIVSTATUS : Nat := 0x280

def G3S_CLKSELSTATUS : Nat := 0x284

/-- A register bit-field in the form the C file writes it:
`DDIV_PACK(offset, bitpos, size)` or `SEL_PLL_PACK(offset, bitpos, size)`.
Field names that the C file uses without defining them (`DIVPL1A`, `DIVPL3A`,
`DIVPL3B`, `DIVPL3C`) are kept by name. -/
inductive reg_field
  | DDIV_PACK (offset bitpos size : Nat)
  | SEL_PLL_PACK (offset bitpos size : Nat)
  | header_field (name : String)
  deriving DecidableEq

open reg_field

def G3S_DIVPL2B : reg_field := DDIV_PACK G3S_CPG_PL2_DDIV 4 3

def G3S_DIV_SDHI0 : reg_field := DDIV_PACK G3S_CPG_SDHI_DDIV 0 1

def G3S_DIV_SDHI1 : reg_field := DDIV_PACK G3S_CPG_SDHI_DDIV 4 1

def G3S_DIV_SDHI2 : reg_field := DDIV_PACK G3S_CPG_SDHI_DDIV 8 1

def G3S_DIV_SPI : reg_field := DDIV_PACK G3S_CPG_SPI_DDIV 0 3

def G3S_DIVPL1A_STS : reg_field := DDIV_PACK G3S_CLKDIVSTATUS 0 1

def G3S_DIVPL2B_STS : reg_field := DDIV_PACK G3S_CLKDIVSTATUS 5 1

def G3S_DIVPL3A_STS : reg_field := DDIV_PACK G3S_CLKDIVSTATUS 8 1

def G3S_DIVPL3B_STS : reg_field := DDIV_PACK G3S_CLKDIVSTATUS 9 1

def G3S_DIVPL3C_STS : reg_field := DDIV_PACK G3S_CLKDIVSTATUS 10 1

def G3S_DIV_SDHI0_STS : reg_field := DDIV_PACK G3S_CLKDIVSTATUS 24 1

def G3S_DIV_SDHI1_STS : reg_field := DDIV_PACK G3S_CLKDIVSTATUS 25 1

def G3S_DIV_SDHI2_STS : reg_field := DDIV_PACK G3S_CLKDIVSTATUS 26 1

def G3S_DIV_SPI_STS : reg_field := DDIV_PACK G3S_CLKDIVSTATUS 29 1

def G3S_SEL_PLL4_STS : reg_field := SEL_PLL_PACK G3S_CLKSELSTATUS 6 1

def G3S_SEL_SDHI0_STS : reg_field := SEL_PLL_PACK G3S_CLKSELSTATUS 16 1

def G3S_SEL_SDHI1_STS : reg_field := SEL_PLL_PACK G3S_CLKSELSTATUS 17 1

def G3S_SEL_SDHI2_STS : reg_field := SEL_PLL_PACK G3S_CLKSELSTATUS 18 1

def G3S_SEL_PLL4 : reg_field := SEL_PLL_PACK G3S_CPG_PLL_DSEL 6 1

def G3S_SEL_SDHI0 : reg_field := SEL_PLL_PACK G3S_CPG_SDHI_DSEL 0 2

def G3S_SEL_SDHI1 : reg_field := SEL_PLL_PACK G3S_CPG_SDHI_DSEL 4 2

def G3S_SEL_SDHI2 : reg_field := SEL_PLL_PACK G3S_CPG_SDHI_DSEL 8 2

def G3S_SEL_SPI : reg_field := SEL_PLL_PACK G3S_CPG_SPI_SSEL 0 2

def DIVPL1A : reg_field := header_field "DIVPL1A"

def DIVPL3A : reg_field := header_field "DIVPL3A"

def DIVPL3B : reg_field := header_field "DIVPL3B"

def DIVPL3C : reg_field := header_field "DIVPL3C"

/-- The configuration word `G3S_PLL146_CONF(clk1, clk2)`:
`(clk1) << 22 | (clk2) << 12`. -/
def G3S_PLL146_CONF (clk1 clk2 : Nat) : Nat := (clk1 <<< 22) ||| (clk2 <<< 12)

/-! ## Core clocks -/

/-- The clock-flag argument of an entry: the literal `0` or one flag name. -/
inductive clk_flags
  | no_flags
  | CLK_SET_PARENT_GATE
  | CLK_SET_RATE_PARENT
  deriving DecidableEq

/-- The notifier argument of an entry: `NULL` or the one notifier in use. -/
inductive notifier
  | NULL
  | rzg3s_cpg_div_clk_notifier
  deriving DecidableEq

/-- One initialiser of `r9a08g045_core_clks`, by the form that writes it, with
the arguments in the order of the C source. -/
inductive cpg_core_clk
  | DEF_INPUT (name : String) (id : core_id)
  | DEF_FIXED (name : String) (id parent : core_id) (mult div : Nat)
  | DEF_G3S_PLL (name : String) (id parent : core_id) (conf : Nat)
  | DEF_MUX (name : String) (id : core_id) (conf : reg_field) (parent_names : List String)
  | DEF_SD_MUX (name : String) (id : core_id) (conf sconf : reg_field)
      (parent_names : List String) (mtable : List Nat) (flags : clk_flags) (notif : notifier)
  | DEF_G3S_DIV (name : String) (id parent : core_id) (conf sconf : reg_field)
      (dtable : List clk_div_table) (rate_arg1 rate_arg2 : Nat) (flags : clk_flags)
      (notif : notifier)
  deriving DecidableEq

open cpg_core_clk clk_flags notifier

def r9a08g045_core_clks : List cpg_core_clk := [
  /- External Clock Inputs -/
  DEF_INPUT "extal" CLK_EXTAL,
  /- Internal Core Clocks -/
  DEF_FIXED ".osc_div1000" CLK_OSC_DIV1000 CLK_EXTAL 1 1000,
  DEF_G3S_PLL ".pll1" CLK_PLL1 CLK_EXTAL (G3S_PLL146_CONF 0x4 0x8),
  DEF_FIXED ".pll2" CLK_PLL2 CLK_EXTAL 200 3,
  DEF_FIXED ".pll3" CLK_PLL3 CLK_EXTAL 200 3,
  DEF_FIXED ".pll4" CLK_PLL4 CLK_EXTAL 100 3,
  DEF_FIXED ".pll6" CLK_PLL6 CLK_EXTAL 125 6,
  DEF_FIXED ".pll2_div2" CLK_PLL2_DIV2 CLK_PLL2 1 2,
  DEF_FIXED ".pll2_div2_8" CLK_PLL2_DIV2_8 CLK_PLL2_DIV2 1 8,
  DEF_FIXED ".pll2_div6" CLK_PLL2_DIV6 CLK_PLL2 1 6,
  DEF_FIXED ".pll3_div2" CLK_PLL3_DIV2 CLK_PLL3 1 2,
  DEF_FIXED ".pll3_div2_2" CLK_PLL3_DIV2_2 CLK_PLL3_DIV2 1 2,
  DEF_FIXED ".pll3_div2_4" CLK_PLL3_DIV2_4 CLK_PLL3_DIV2 1 4,
  DEF_FIXED ".pll3_div2_8" CLK_PLL3_DIV2_8 CLK_PLL3_DIV2 1 8,
  DEF_FIXED ".pll3_div6" CLK_PLL3_DIV6 CLK_PLL3 1 6,
  DEF_FIXED ".pll6_div2" CLK_PLL6_DIV2 CLK_PLL6 1 2,
  DEF_MUX ".sel_spi" CLK_SEL_SPI G3S_SEL_SPI sel_spi_octa,
  DEF_SD_MUX ".sel_sd0" CLK_SEL_SDHI0 G3S_SEL_SDHI0 G3S_SEL_SDHI0_STS sel_sdhi
    mtable_sd no_flags NULL,
  DEF_SD_MUX ".sel_sd1" CLK_SEL_SDHI1 G3S_SEL_SDHI1 G3S_SEL_SDHI1_STS sel_sdhi
    mtable_sd no_flags NULL,
  DEF_SD_MUX ".sel_sd2" CLK_SEL_SDHI2 G3S_SEL_SDHI2 G3S_SEL_SDHI2_STS sel_sdhi
    mtable_sd no_flags NULL,
  DEF_SD_MUX ".sel_pll4" CLK_SEL_PLL4 G3S_SEL_PLL4 G3S_SEL_PLL4_STS sel_pll4
    mtable_pll4 CLK_SET_PARENT_GATE NULL,
  /- Core output clk -/
  DEF_G3S_DIV "I" R9A08G045_CLK_I CLK_PLL1 DIVPL1A G3S_DIVPL1A_STS dtable_1_8
    0 0 no_flags NULL,
  DEF_G3S_DIV "P0" R9A08G045_CLK_P0 CLK_PLL2_DIV2_8 G3S_DIVPL2B G3S_DIVPL2B_STS
    dtable_1_32 0 0 no_flags NULL,
  DEF_G3S_DIV "SD0" R9A08G045_CLK_SD0 CLK_SEL_SDHI0 G3S_DIV_SDHI0 G3S_DIV_SDHI0_STS
    dtable_1_2 800000000 500000000 CLK_SET_RATE_PARENT
    rzg3s_cpg_div_clk_notifier,
  DEF_G3S_DIV "SD1" R9A08G045_CLK_SD1 CLK_SEL_SDHI1 G3S_DIV_SDHI1 G3S_DIV_SDHI1_STS
    dtable_1_2 800000000 500000000 CLK_SET_RATE_PARENT
    rzg3s_cpg_div_clk_notifier,
  DEF_G3S_DIV "SD2" R9A08G045_CLK_SD2 CLK_SEL_SDHI2 G3S_DIV_SDHI2 G3S_DIV_SDHI2_STS
    dtable_1_2 800000000 500000000 CLK_SET_RATE_PARENT
    rzg3s_cpg_div_clk_notifier,
  DEF_G3S_DIV "SPI0" R9A08G045_CLK_SPI0 CLK_SEL_SPI G3S_DIV_SPI G3S_DIV_SPI_STS
    dtable_1_32 400000000 200000000 CLK_SET_RATE_PARENT
    rzg3s_cpg_div_clk_notifier,
  DEF_FIXED "SPI1" R9A08G045_CLK_SPI1 R9A08G045_CLK_SPI0 1 2,
  DEF_FIXED ".sd0_div4" CLK_SD0_DIV4 R9A08G045_CLK_SD0 1 4,
  DEF_FIXED ".sd1_div4" CLK_SD1_DIV4 R9A08G045_CLK_SD1 1 4,
  DEF_FIXED ".sd2_div4" CLK_SD2_DIV4 R9A08G045_CLK_SD2 1 4,
  DEF_FIXED "M0" R9A08G045_CLK_M0 CLK_PLL3_DIV2_4 1 1,
  DEF_FIXED "TSU" R9A08G045_CLK_TSU CLK_PLL2_DIV2 1 8,
  DEF_G3S_DIV "P1" R9A08G045_CLK_P1 CLK_PLL3_DIV2_4 DIVPL3A G3S_DIVPL3A_STS
    dtable_1_32 0 0 no_flags NULL,
  DEF_FIXED "P1_DIV2" CLK_P1_DIV2 R9A08G045_CLK_P1 1 2,
  DEF_G3S_DIV "P2" R9A08G045_CLK_P2 CLK_PLL3_DIV2_8 DIVPL3B G3S_DIVPL3B_STS
    dtable_1_32 0 0 no_flags NULL,
  DEF_G3S_DIV "P3" R9A08G045_CLK_P3 CLK_PLL3_DIV2_4 DIVPL3C G3S_DIVPL3C_STS
    dtable_1_32 0 0 no_flags NULL,
  DEF_FIXED "P3_DIV2" CLK_P3_DIV2 R9A08G045_CLK_P3 1 2,
  DEF_FIXED "P4" R9A08G045_CLK_P4 CLK_PLL2_DIV2 1 5,
  DEF_FIXED "P4_DIV2" CLK_P4_DIV2 R9A08G045_CLK_P4 1 2,
  DEF_FIXED "CANFD" R9A08G045_CLK_CANFD CLK_P4_DIV2 1 1,
  DEF_FIXED "P5" R9A08G045_CLK_P5 CLK_PLL2_DIV2 1 4,
  DEF_FIXED "ZT" R9A08G045_CLK_ZT CLK_PLL3_DIV2_8 1 1,
  DEF_FIXED "S0" R9A08G045_CLK_S0 CLK_SEL_PLL4 1 2,
  DEF_FIXED "OSC" R9A08G045_OSCCLK CLK_EXTAL 1 1,
  DEF_FIXED "OSC2" R9A08G045_OSCCLK2 CLK_EXTAL 1 3,
  DEF_FIXED "HP" R9A08G045_CLK_HP CLK_PLL6 1 2
]

/-! ## Module clocks -/

/-- Module-stop registers named in the table.  `MCPU3_MSTOP` is defined in the
C file (offset `0xB90`); the other names come from the driver header. -/
inductive mstop_reg
  | PERI_CPU_MSTOP
  | REG1_MSTOP
  | REG0_MSTOP
  | MCPU1_MSTOP
  | MCPU2_MSTOP
  | MCPU3_MSTOP
  | PERI_COM_MSTOP
  deriving DecidableEq

/-- The bit mask `BIT(n)`. -/
def BIT (n : Nat) : Nat := 1 <<< n

/-- The module-stop argument of a module clock: the literal `0`, or
`MSTOP(register, bits)`. -/
inductive mstop_arg
  | no_mstop
  | MSTOP (reg : mstop_reg) (bits : Nat)
  deriving DecidableEq

/-- One initialiser of `r9a08g045_mod_clks`: `DEF_MOD` or `DEF_COUPLED`, with
the arguments in the order of the C source. -/
inductive rzg2l_mod_clk
  | DEF_MOD (name : String) (id : dt_mod_clk) (parent : core_id) (off bit : Nat)
      (mstop : mstop_arg)
  | DEF_COUPLED (name : String) (id : dt_mod_clk) (parent : core_id) (off bit : Nat)
      (mstop : mstop_arg)
  deriving DecidableEq

open mstop_reg mstop_arg rzg2l_mod_clk

def r9a08g045_mod_clks : List rzg2l_mod_clk := [
  DEF_MOD "gic_gicclk" R9A08G045_GIC600_GICCLK R9A08G045_CLK_P1 0x514 0 no_mstop,
  DEF_MOD "ia55_pclk" R9A08G045_IA55_PCLK R9A08G045_CLK_P2 0x518 0 no_mstop,
  DEF_MOD "ia55_clk" R9A08G045_IA55_CLK R9A08G045_CLK_P1 0x518 1 (MSTOP PERI_CPU_MSTOP (BIT 13)),
  DEF_MOD "dmac_aclk" R9A08G045_DMAC_ACLK R9A08G045_CLK_P3 0x52c 0 (MSTOP REG1_MSTOP (BIT 2 ||| BIT 3)),
  DEF_MOD "dmac_pclk" R9A08G045_DMAC_PCLK CLK_P3_DIV2 0x52c 1 no_mstop,
  DEF_MOD "ostm0_pclk" R9A08G045_OSTM0_PCLK R9A08G045_CLK_P0 0x534 0 (MSTOP REG0_MSTOP (BIT 4)),
  DEF_MOD "ostm1_pclk" R9A08G045_OSTM1_PCLK R9A08G045_CLK_P0 0x534 1 (MSTOP REG0_MSTOP (BIT 5)),
  DEF_MOD "ostm2_pclk" R9A08G045_OSTM2_PCLK R9A08G045_CLK_P0 0x534 2 (MSTOP REG0_MSTOP (BIT 6)),
  DEF_MOD "ostm3_pclk" R9A08G045_OSTM3_PCLK R9A08G045_CLK_P0 0x534 3 (MSTOP REG0_MSTOP (BIT 7)),
  DEF_MOD "ostm4_pclk" R9A08G045_OSTM4_PCLK R9A08G045_CLK_P0 0x534 4 (MSTOP REG0_MSTOP (BIT 8)),
  DEF_MOD "ostm5_pclk" R9A08G045_OSTM5_PCLK R9A08G045_CLK_P0 0x534 5 (MSTOP REG0_MSTOP (BIT 9)),
  DEF_MOD "ostm6_pclk" R9A08G045_OSTM6_PCLK R9A08G045_CLK_P0 0x534 6 (MSTOP REG0_MSTOP (BIT 10)),
  DEF_MOD "ostm7_pclk" R9A08G045_OSTM7_PCLK R9A08G045_CLK_P0 0x534 7 (MSTOP REG0_MSTOP (BIT 11)),
  DEF_MOD "mtu_x_mck" R9A08G045_MTU_X_MCK_MTU3 R9A08G045_CLK_P0 0x538 0 (MSTOP MCPU1_MSTOP (BIT 2)),
  DEF_MOD "poe3_clkm_poe" R9A08G045_POE3_CLKM_POE R9A08G045_CLK_P0 0x53C 0 (MSTOP MCPU1_MSTOP (BIT 9)),
  DEF_MOD "gpt_pclk" R9A08G045_GPT_PCLK R9A08G045_CLK_P0 0x540 0 (MSTOP MCPU3_MSTOP (BIT 5)),
  DEF_MOD "poeg_a_clkp" R9A08G045_POEG_A_CLKP R9A08G045_CLK_P0 0x544 0 no_mstop,
  DEF_MOD "poeg_b_clkp" R9A08G045_POEG_B_CLKP R9A08G045_CLK_P0 0x544 1 no_mstop,
  DEF_MOD "poeg_c_clkp" R9A08G045_POEG_C_CLKP R9A08G045_CLK_P0 0x544 2 no_mstop,
  DEF_MOD "poeg_d_clkp" R9A08G045_POEG_D_CLKP R9A08G045_CLK_P0 0x544 3 no_mstop,
  DEF_MOD "wdt0_pclk" R9A08G045_WDT0_PCLK R9A08G045_CLK_P0 0x548 0 no_mstop,
  DEF_MOD "wdt0_clk" R9A08G045_WDT0_CLK R9A08G045_OSCCLK 0x548 1 (MSTOP REG0_MSTOP (BIT 0)),
  DEF_MOD "spi_hclk" R9A08G045_SPI_HCLK R9A08G045_CLK_P3 0x550 0 no_mstop,
  DEF_MOD "spi_aclk" R9A08G045_SPI_ACLK R9A08G045_CLK_P3 0x550 1 no_mstop,
  DEF_MOD "spi_clk" R9A08G045_SPI_CLK R9A08G045_CLK_SPI1 0x550 2 (MSTOP MCPU1_MSTOP (BIT 1)),
  DEF_MOD "spi_clkx2" R9A08G045_SPI_CLKX2 R9A08G045_CLK_SPI0 0x550 3 no_mstop,
  DEF_MOD "sdhi0_imclk" R9A08G045_SDHI0_IMCLK CLK_SD0_DIV4 0x554 0 (MSTOP PERI_COM_MSTOP (BIT 0)),
  DEF_MOD "sdhi0_imclk2" R9A08G045_SDHI0_IMCLK2 CLK_SD0_DIV4 0x554 1 no_mstop,
  DEF_MOD "sdhi0_clk_hs" R9A08G045_SDHI0_CLK_HS R9A08G045_CLK_SD0 0x554 2 no_mstop,
  DEF_MOD "sdhi0_aclk" R9A08G045_SDHI0_ACLK R9A08G045_CLK_P1 0x554 3 no_mstop,
  DEF_MOD "sdhi1_imclk" R9A08G045_SDHI1_IMCLK CLK_SD1_DIV4 0x554 4 (MSTOP PERI_COM_MSTOP (BIT 1)),
  DEF_MOD "sdhi1_imclk2" R9A08G045_SDHI1_IMCLK2 CLK_SD1_DIV4 0x554 5 no_mstop,
  DEF_MOD "sdhi1_clk_hs" R9A08G045_SDHI1_CLK_HS R9A08G045_CLK_SD1 0x554 6 no_mstop,
  DEF_MOD "sdhi1_aclk" R9A08G045_SDHI1_ACLK R9A08G045_CLK_P1 0x554 7 no_mstop,
  DEF_MOD "sdhi2_imclk" R9A08G045_SDHI2_IMCLK CLK_SD2_DIV4 0x554 8 (MSTOP PERI_COM_MSTOP (BIT 11)),
  DEF_MOD "sdhi2_imclk2" R9A08G045_SDHI2_IMCLK2 CLK_SD2_DIV4 0x554 9 no_mstop,
  DEF_MOD "sdhi2_clk_hs" R9A08G045_SDHI2_CLK_HS R9A08G045_CLK_SD2 0x554 10 no_mstop,
  DEF_MOD "sdhi2_aclk" R9A08G045_SDHI2_ACLK R9A08G045_CLK_P1 0x554 11 no_mstop,
  DEF_MOD "ssi0_pclk" R9A08G045_SSI0_PCLK2 R9A08G045_CLK_P0 0x570 0 (MSTOP MCPU1_MSTOP (BIT 10)),
  DEF_MOD "ssi0_sfr" R9A08G045_SSI0_PCLK_SFR R9A08G045_CLK_P0 0x570 1 no_mstop,
  DEF_MOD "ssi1_pclk" R9A08G045_SSI1_PCLK2 R9A08G045_CLK_P0 0x570 2 (MSTOP MCPU1_MSTOP (BIT 11)),
  DEF_MOD "ssi1_sfr" R9A08G045_SSI1_PCLK_SFR R9A08G045_CLK_P0 0x570 3 no_mstop,
  DEF_MOD "ssi2_pclk" R9A08G045_SSI2_PCLK2 R9A08G045_CLK_P0 0x570 4 (MSTOP MCPU1_MSTOP (BIT 12)),
  DEF_MOD "ssi2_sfr" R9A08G045_SSI2_PCLK_SFR R9A08G045_CLK_P0 0x570 5 no_mstop,
  DEF_MOD "ssi3_pclk" R9A08G045_SSI3_PCLK2 R9A08G045_CLK_P0 0x570 6 (MSTOP MCPU1_MSTOP (BIT 13)),
  DEF_MOD "ssi3_sfr" R9A08G045_SSI3_PCLK_SFR R9A08G045_CLK_P0 0x570 7 no_mstop,
  DEF_MOD "src_clkp" R9A08G045_SRC_CLKP R9A08G045_CLK_P0 0x574 0 (MSTOP MCPU1_MSTOP (BIT 3)),
  DEF_MOD "usb_u2h0_hclk" R9A08G045_USB_U2H0_HCLK R9A08G045_CLK_P1 0x578 0 no_mstop,
  DEF_MOD "usb_u2h1_hclk" R9A08G045_USB_U2H1_HCLK R9A08G045_CLK_P1 0x578 1 no_mstop,
  DEF_MOD "usb_u2p_exr_cpuclk" R9A08G045_USB_U2P_EXR_CPUCLK R9A08G045_CLK_P1 0x578 2 no_mstop,
  DEF_MOD "usb_pclk" R9A08G045_USB_PCLK R9A08G045_CLK_P1 0x578 3 (MSTOP PERI_COM_MSTOP (BIT 4 ||| BIT 5 ||| BIT 6 ||| BIT 7)),
  DEF_COUPLED "eth0_axi" R9A08G045_ETH0_CLK_AXI R9A08G045_CLK_M0 0x57c 0 (MSTOP PERI_COM_MSTOP (BIT 2)),
  DEF_COUPLED "eth0_chi" R9A08G045_ETH0_CLK_CHI R9A08G045_CLK_ZT 0x57c 0 no_mstop,
  DEF_MOD "eth0_refclk" R9A08G045_ETH0_REFCLK R9A08G045_CLK_HP 0x57c 8 no_mstop,
  DEF_COUPLED "eth1_axi" R9A08G045_ETH1_CLK_AXI R9A08G045_CLK_M0 0x57c 1 (MSTOP PERI_COM_MSTOP (BIT 3)),
  DEF_COUPLED "eth1_chi" R9A08G045_ETH1_CLK_CHI R9A08G045_CLK_ZT 0x57c 1 no_mstop,
  DEF_MOD "eth1_refclk" R9A08G045_ETH1_REFCLK R9A08G045_CLK_HP 0x57c 9 no_mstop,
  DEF_MOD "i2c0_pclk" R9A08G045_I2C0_PCLK R9A08G045_CLK_P0 0x580 0 (MSTOP MCPU2_MSTOP (BIT 10)),
  DEF_MOD "i2c1_pclk" R9A08G045_I2C1_PCLK R9A08G045_CLK_P0 0x580 1 (MSTOP MCPU2_MSTOP (BIT 11)),
  DEF_MOD "i2c2_pclk" R9A08G045_I2C2_PCLK R9A08G045_CLK_P0 0x580 2 (MSTOP MCPU2_MSTOP (BIT 12)),
  DEF_MOD "i2c3_pclk" R9A08G045_I2C3_PCLK R9A08G045_CLK_P0 0x580 3 (MSTOP MCPU2_MSTOP (BIT 13)),
  DEF_MOD "scif0_clk_pck" R9A08G045_SCIF0_CLK_PCK R9A08G045_CLK_P0 0x584 0 (MSTOP MCPU2_MSTOP (BIT 1)),
  DEF_MOD "scif1_clk_pck" R9A08G045_SCIF1_CLK_PCK R9A08G045_CLK_P0 0x584 1 (MSTOP MCPU2_MSTOP (BIT 2)),
  DEF_MOD "scif2_clk_pck" R9A08G045_SCIF2_CLK_PCK R9A08G045_CLK_P0 0x584 2 (MSTOP MCPU2_MSTOP (BIT 3)),
  DEF_MOD "scif3_clk_pck" R9A08G045_SCIF3_CLK_PCK R9A08G045_CLK_P0 0x584 3 (MSTOP MCPU2_MSTOP (BIT 4)),
  DEF_MOD "scif4_clk_pck" R9A08G045_SCIF4_CLK_PCK R9A08G045_CLK_P0 0x584 4 (MSTOP MCPU2_MSTOP (BIT 5)),
  DEF_MOD "scif5_clk_pck" R9A08G045_SCIF5_CLK_PCK R9A08G045_CLK_P0 0x584 5 (MSTOP MCPU3_MSTOP (BIT 4)),
  DEF_MOD "sci0_clk_pck" R9A08G045_SCI0_CLKP R9A08G045_CLK_P0 0x588 0 (MSTOP MCPU2_MSTOP (BIT 7)),
  DEF_MOD "sci1_clk_pck" R9A08G045_SCI1_CLKP R9A08G045_CLK_P0 0x588 1 (MSTOP MCPU2_MSTOP (BIT 8)),
  DEF_MOD "rspi0_clkb" R9A08G045_RSPI0_CLKB R9A08G045_CLK_P0 0x590 0 (MSTOP MCPU1_MSTOP (BIT 14)),
  DEF_MOD "rspi1_clkb" R9A08G045_RSPI1_CLKB R9A08G045_CLK_P0 0x590 1 (MSTOP MCPU1_MSTOP (BIT 15)),
  DEF_MOD "rspi2_clkb" R9A08G045_RSPI2_CLKB R9A08G045_CLK_P0 0x590 2 (MSTOP MCPU2_MSTOP (BIT 0)),
  DEF_MOD "rspi3_clkb" R9A08G045_RSPI3_CLKB R9A08G045_CLK_P0 0x590 3 (MSTOP MCPU3_MSTOP (BIT 2)),
  DEF_MOD "rspi4_clkb" R9A08G045_RSPI4_CLKB R9A08G045_CLK_P0 0x590 4 (MSTOP MCPU3_MSTOP (BIT 3)),
  DEF_MOD "canfd_pclk" R9A08G045_CANFD_PCLK CLK_P4_DIV2 0x594 0 (MSTOP MCPU2_MSTOP (BIT 9)),
  DEF_MOD "canfd_clk_ram" R9A08G045_CANFD_CLK_RAM R9A08G045_CLK_P4 0x594 1 no_mstop,
  DEF_MOD "gpio_hclk" R9A08G045_GPIO_HCLK R9A08G045_OSCCLK 0x598 0 no_mstop,
  DEF_MOD "adc_adclk" R9A08G045_ADC_ADCLK R9A08G045_CLK_TSU 0x5a8 0 (MSTOP MCPU2_MSTOP (BIT 14)),
  DEF_MOD "adc_pclk" R9A08G045_ADC_PCLK R9A08G045_CLK_TSU 0x5a8 1 no_mstop,
  DEF_MOD "tsu_pclk" R9A08G045_TSU_PCLK R9A08G045_CLK_TSU 0x5ac 0 (MSTOP MCPU2_MSTOP (BIT 15)),
  DEF_MOD "pci_aclk" R9A08G045_PCI_ACLK R9A08G045_CLK_M0 0x608 0 no_mstop,
  DEF_MOD "pci_clk1pm" R9A08G045_PCI_CLKL1PM R9A08G045_CLK_ZT 0x608 1 no_mstop,
  DEF_MOD "spdif_pclk" R9A08G045_SPDIF_PCLK R9A08G045_CLK_P0 0x60c 0 (MSTOP MCPU3_MSTOP (BIT 6)),
  DEF_MOD "i3c_tclk" R9A08G045_I3C_TCLK R9A08G045_CLK_P5 0x610 1 (MSTOP MCPU3_MSTOP (BIT 10)),
  DEF_MOD "i3c_pclk" R9A08G045_I3C_PCLK R9A08G045_CLK_TSU 0x610 0 no_mstop,
  DEF_MOD "vbat_bclk" R9A08G045_VBAT_BCLK R9A08G045_OSCCLK 0x614 0 (MSTOP MCPU3_MSTOP (BIT 8))
]

/-- The list `r9a08g045_crit_mod_clks`; each element is written
`MOD_CLK_BASE + R9A08G045_...` in the C source. -/
def r9a08g045_crit_mod_clks (h : dt_bindings) : List Nat := [
  MOD_CLK_BASE h + h.mod R9A08G045_GIC600_GICCLK,
  MOD_CLK_BASE h + h.mod R9A08G045_IA55_PCLK,
  MOD_CLK_BASE h + h.mod R9A08G045_IA55_CLK,
  MOD_CLK_BASE h + h.mod R9A08G045_DMAC_ACLK,
  MOD_CLK_BASE h + h.mod R9A08G045_VBAT_BCLK
]

/-! ## Parent references -/

def cpg_core_clk.name : cpg_core_clk → String
  | DEF_INPUT name _ => name
  | DEF_FIXED name _ _ _ _ => name
  | DEF_G3S_PLL name _ _ _ => name
  | DEF_MUX name _ _ _ => name
  | DEF_SD_MUX name _ _ _ _ _ _ _ => name
  | DEF_G3S_DIV name _ _ _ _ _ _ _ _ _ => name

def cpg_core_clk.id : cpg_core_clk → core_id
  | DEF_INPUT _ id => id
  | DEF_FIXED _ id _ _ _ => id
  | DEF_G3S_PLL _ id _ _ => id
  | DEF_MUX _ id _ _ => id
  | DEF_SD_MUX _ id _ _ _ _ _ _ => id
  | DEF_G3S_DIV _ id _ _ _ _ _ _ _ _ => id

/-- A reference from a clock to a parent: by identifier (the parent argument
of an entry) or by clock name (an element of a mux parent-name list). -/
inductive parent_ref
  | by_id (i : core_id)
  | by_name (s : String)
  deriving DecidableEq

open parent_ref

/-- The parent references an entry carries: none for an input, the parent
argument for a fixed-factor, PLL or divider clock, the listed names for a
mux. -/
def cpg_core_clk.parent_refs : cpg_core_clk → List parent_ref
  | DEF_INPUT _ _ => []
  | DEF_FIXED _ _ parent _ _ => [by_id parent]
  | DEF_G3S_PLL _ _ parent _ => [by_id parent]
  | DEF_MUX _ _ _ parent_names => parent_names.map by_name
  | DEF_SD_MUX _ _ _ _ parent_names _ _ _ => parent_names.map by_name
  | DEF_G3S_DIV _ _ parent _ _ _ _ _ _ _ => [by_id parent]

def rzg2l_mod_clk.name : rzg2l_mod_clk → String
  | DEF_MOD name _ _ _ _ _ => name
  | DEF_COUPLED name _ _ _ _ _ => name

def rzg2l_mod_clk.id : rzg2l_mod_clk → dt_mod_clk
  | DEF_MOD _ id _ _ _ _ => id
  | DEF_COUPLED _ id _ _ _ _ => id

def rzg2l_mod_clk.parent : rzg2l_mod_clk → core_id
  | DEF_MOD _ _ parent _ _ _ => parent
  | DEF_COUPLED _ _ parent _ _ _ => parent

def rzg2l_mod_clk.off : rzg2l_mod_clk → Nat
  | DEF_MOD _ _ _ off _ _ => off
  | DEF_COUPLED _ _ _ off _ _ => off

def rzg2l_mod_clk.bit : rzg2l_mod_clk → Nat
  | DEF_MOD _ _ _ _ bit _ => bit
  | DEF_COUPLED _ _ _ _ bit _ => bit

def rzg2l_mod_clk.mstop : rzg2l_mod_clk → mstop_arg
  | DEF_MOD _ _ _ _ _ mstop => mstop
  | DEF_COUPLED _ _ _ _ _ mstop => mstop

def rzg2l_mod_clk.is_coupled : rzg2l_mod_clk → Bool
  | DEF_MOD _ _ _ _ _ _ => false
  | DEF_COUPLED _ _ _ _ _ _ => true

/-- Whether the reference `r` designates the core clock `c`, identifiers being
compared with `eqv`: an identifier reference designates the entry with that
identifier, a name reference the entry with that name. -/
def parent_ref.designates (eqv : core_id → core_id → Bool) : parent_ref → cpg_core_clk → Bool
  | by_id i, c => eqv c.id i
  | by_name s, c => decide (c.name = s)

/-- Comparison of identifiers as written, before the header gives them numbers. -/
def same_name (a b : core_id) : Bool := decide (a = b)

/-! ## The clock graph -/

/-- A node of the clock graph: a core clock or a module clock. -/
inductive clk_node
  | core (c : cpg_core_clk)
  | module (m : rzg2l_mod_clk)
  deriving DecidableEq

open clk_node

/-- All nodes: the core table followed by the module table. -/
def all_nodes : List clk_node :=
  r9a08g045_core_clks.map core ++ r9a08g045_mod_clks.map module

/-- The parent references of a node; a module clock has its parent argument. -/
def clk_node.parent_refs : clk_node → List parent_ref
  | core c => c.parent_refs
  | module m => [by_id m.parent]

/-- The entries of the core table that a reference designates. -/
def resolve (eqv : core_id → core_id → Bool) (r : parent_ref) : List cpg_core_clk :=
  r9a08g045_core_clks.filter (r.designates eqv)

/-- The parents of a node: every core clock designated by one of its
references (for a mux, by any of its candidate names). -/
def clk_node.parents (eqv : core_id → core_id → Bool) (n : clk_node) : List clk_node :=
  (n.parent_refs.flatMap (resolve eqv)).map core

/-- The input node `extal`. -/
def extal : clk_node := core (DEF_INPUT "extal" CLK_EXTAL)

/-- `hops par a k b`: from `a`, following a parent `k` times leads to `b`. -/
inductive hops {α : Type} (par : α → List α) : α → Nat → α → Prop
  | here (a : α) : hops par a 0 a
  | step {a p b : α} {k : Nat} : p ∈ par a → hops par p k b → hops par a (k + 1) b

/-- Follow parents from `a` for at most `fuel` hops, taking at every node the
candidate that `pick` selects; the result is the parentless node reached, or
`none` when the fuel ran out first. -/
def walk {α : Type} (par : α → List α) (pick : α → Nat) : Nat → α → Option α
  | 0, a => if (par a).isEmpty then some a else none
  | fuel + 1, a =>
    match par a with
    | [] => some a
    | p :: ps => walk par pick fuel ((p :: ps).getD (pick a % (ps.length + 1)) p)

/-- `settles par root k a`: every way of following parents from `a` arrives at
`root` within `k` hops and cannot stop earlier. -/
def settles {α : Type} [DecidableEq α] (par : α → List α) (root : α) : Nat → α → Bool
  | 0, a => decide (a = root)
  | k + 1, a => decide (a = root) || (!(par a).isEmpty && (par a).all (settles par root k))

/-! ## A sample header -/

/-- A sample numbering of the header names, each name numbered by its position
in the lists above (so `R9A08G045_CLK_I` is 0 and `R9A08G045_CLK_CANFD`, the
last core name, is 19).  It stands for one possible binding header. -/
def sample_bindings : dt_bindings where
  core := fun c => c.toCtorIdx
  mod := fun m => m.toCtorIdx

/-! ## Module clock numbers -/

/-- The number of a module clock in the clock number space, the form in which
`r9a08g045_crit_mod_clks` names module clocks: `MOD_CLK_BASE` plus the
identifier argument of the entry. -/
def rzg2l_mod_clk.clk_id (h : dt_bindings) (m : rzg2l_mod_clk) : Nat :=
  MOD_CLK_BASE h + h.mod m.id

/-- The module clock entries whose number is `x`. -/
def mod_clks_numbered (h : dt_bindings) (x : Nat) : List rzg2l_mod_clk :=
  r9a08g045_mod_clks.filter (fun m => decide (m.clk_id h = x))

/-- Whether two module clock entries are driven by the same physical bit:
same register offset and same bit index. -/
def rzg2l_mod_clk.same_bit (a b : rzg2l_mod_clk) : Bool :=
  decide (a.off = b.off) && decide (a.bit = b.bit)

/-! ## Lookup table scans -/

/-- The entries a scan of a divider table visits when it starts at the first
entry and stops at the first entry whose divisor is zero. -/
def div_table_scan (t : List clk_div_table) : List clk_div_table :=
  t.takeWhile (fun e => decide (e.div ≠ 0))

/-- The three divider tables of the file. -/
def divider_tables : List (List clk_div_table) := [dtable_1_2, dtable_1_8, dtable_1_32]

/-- The divider table argument of an entry, when it is a `DEF_G3S_DIV` entry. -/
def cpg_core_clk.dtable : cpg_core_clk → Option (List clk_div_table)
  | DEF_G3S_DIV _ _ _ _ _ dtable _ _ _ _ => some dtable
  | _ => none

/-- The candidate parent names of a mux entry (empty for the other forms). -/
def cpg_core_clk.parent_names : cpg_core_clk → List String
  | DEF_MUX _ _ _ parent_names => parent_names
  | DEF_SD_MUX _ _ _ _ parent_names _ _ _ => parent_names
  | _ => []

/-- The mux table argument of an entry, when it has one. -/
def cpg_core_clk.mtable : cpg_core_clk → Option (List Nat)
  | DEF_SD_MUX _ _ _ _ _ mtable _ _ => some mtable
  | _ => none

/-- Modelled from the spec: the meaning of a mux table; the C file only hands
the table to the `DEF_SD_MUX` form, whose definition and consumer it does not
contain.  The table relates candidate-list
positions and raw selector field values: the candidate at position `i` of the
parent-name list has raw value `mtable[i]`; a mux without table uses the
position itself.  The number of candidates is the length of the parent-name
list (`num_parents = ARRAY_SIZE(parent_names)`). -/
def cpg_core_clk.selector_code (c : cpg_core_clk) (i : Nat) : Option Nat :=
  if i < c.parent_names.length then
    match c.mtable with
    | some t => t[i]?
    | none => some i
  else none

/-! ## Fixed-factor rates -/

/-- The parent, multiplier and divisor arguments of a `DEF_FIXED` entry. -/
structure fixed_factor_args where
  parent : core_id
  mult : Nat
  div : Nat
  deriving DecidableEq

/-- The fixed-factor arguments of an entry, when it is a `DEF_FIXED` entry. -/
def cpg_core_clk.fixed_factor : cpg_core_clk → Option fixed_factor_args
  | DEF_FIXED _ _ parent mult div => some ⟨parent, mult, div⟩
  | _ => none

/-- Modelled from the spec: the rate of a FixedFactor node,
`parent_rate * mul / div`, the product taken in 64 bits as the `u64` rate of the
spec (section 3, FixedFactor; section 4.2, `rate_of`).  The C file holds the
factors only, not the function computing rates. -/
def fixed_factor_rate (parent_rate mult div : Nat) : Nat :=
  (parent_rate * mult) % 2 ^ 64 / div

/-- Modelled from the spec: top-down rate resolution (section 4.2, `rate_of`),
which the C file does not contain, restricted to Input and FixedFactor nodes.
The clock numbered like `i` is
looked up in the core table; the input has the externally supplied rate, a
fixed-factor clock the rate of its parent scaled by `mult / div`; any other kind
of clock, an unknown identifier, or exhausted fuel gives `none`. -/
def ff_rate (eqv : core_id → core_id → Bool) (extal_rate : Nat) : Nat → core_id → Option Nat
  | 0, _ => none
  | fuel + 1, i =>
    match r9a08g045_core_clks.find? (fun c => eqv c.id i) with
    | some (DEF_INPUT _ _) => some extal_rate
    | some (DEF_FIXED _ _ parent mult div) =>
      (ff_rate eqv extal_rate fuel parent).map (fun pr => fixed_factor_rate pr mult div)
    | _ => none

/-- Rate of the clock `i` when `extal` runs at 24 MHz, defined when `i` and
all its ancestors are Input or FixedFactor nodes.  The fuel is the length of
the core table, more than any chain of parents needs. -/
def rate_24mhz (h : dt_bindings) (i : core_id) : Option Nat :=
  ff_rate (same_id h) 24000000 r9a08g045_core_clks.length i

/-! ## Resets -/

/-- Reset identifiers of the binding header that the C file refers to. -/
inductive dt_reset
  | R9A08G045_GIC600_GICRESET_N
  | R9A08G045_GIC600_DBG_GICRESET_N
  | R9A08G045_IA55_RESETN
  | R9A08G045_DMAC_ARESETN
  | R9A08G045_DMAC_RST_ASYNC
  | R9A08G045_OSTM0_PRESETZ
  | R9A08G045_OSTM1_PRESETZ
  | R9A08G045_OSTM2_PRESETZ
  | R9A08G045_OSTM3_PRESETZ
  | R9A08G045_OSTM4_PRESETZ
  | R9A08G045_OSTM5_PRESETZ
  | R9A08G045_OSTM6_PRESETZ
  | R9A08G045_OSTM7_PRESETZ
  | R9A08G045_MTU_X_PRESET_MTU3
  | R9A08G045_POE3_RST_M_REG
  | R9A08G045_GPT_RST_C
  | R9A08G045_POEG_A_RST
  | R9A08G045_POEG_B_RST
  | R9A08G045_POEG_C_RST
  | R9A08G045_POEG_D_RST
  | R9A08G045_WDT0_PRESETN
  | R9A08G045_SPI_HRESETN
  | R9A08G045_SPI_ARESETN
  | R9A08G045_SDHI0_IXRST
  | R9A08G045_SDHI1_IXRST
  | R9A08G045_SDHI2_IXRST
  | R9A08G045_SSI0_RST_M2_REG
  | R9A08G045_SSI1_RST_M2_REG
  | R9A08G045_SSI2_RST_M2_REG
  | R9A08G045_SSI3_RST_M2_REG
  | R9A08G045_SRC_RST
  | R9A08G045_USB_U2H0_HRESETN
  | R9A08G045_USB_U2H1_HRESETN
  | R9A08G045_USB_U2P_EXL_SYSRST
  | R9A08G045_USB_PRESETN
  | R9A08G045_ETH0_RST_HW_N
  | R9A08G045_ETH1_RST_HW_N
  | R9A08G045_I2C0_MRST
  | R9A08G045_I2C1_MRST
  | R9A08G045_I2C2_MRST
  | R9A08G045_I2C3_MRST
  | R9A08G045_SCIF0_RST_SYSTEM_N
  | R9A08G045_SCIF1_RST_SYSTEM_N
  | R9A08G045_SCIF2_RST_SYSTEM_N
  | R9A08G045_SCIF3_RST_SYSTEM_N
  | R9A08G045_SCIF4_RST_SYSTEM_N
  | R9A08G045_SCIF5_RST_SYSTEM_N
  | R9A08G045_SCI0_RST
  | R9A08G045_SCI1_RST
  | R9A08G045_RSPI0_RST
  | R9A08G045_RSPI1_RST
  | R9A08G045_RSPI2_RST
  | R9A08G045_RSPI3_RST
  | R9A08G045_RSPI4_RST
  | R9A08G045_CANFD_RSTP_N
  | R9A08G045_CANFD_RSTC_N
  | R9A08G045_GPIO_RSTN
  | R9A08G045_GPIO_PORT_RESETN
  | R9A08G045_GPIO_SPARE_RESETN
  | R9A08G045_ADC_PRESETN
  | R9A08G045_ADC_ADRST_N
  | R9A08G045_TSU_PRESETN
  | R9A08G045_PCI_ARESETN
  | R9A08G045_PCI_RST_B
  | R9A08G045_PCI_RST_GP_B
  | R9A08G045_PCI_RST_PS_B
  | R9A08G045_PCI_RST_RSM_B
  | R9A08G045_PCI_RST_CFG_B
  | R9A08G045_PCI_RST_LOAD_B
  | R9A08G045_SPDIF_RST
  | R9A08G045_I3C_TRESETN
  | R9A08G045_I3C_PRESETN
  | R9A08G045_VBAT_BRESETN
  deriving DecidableEq

open dt_reset

/-- One initialiser of `r9a08g045_resets`: `DEF_RST(id, off, bit)`. -/
inductive rzg2l_reset
  | DEF_RST (id : dt_reset) (off bit : Nat)
  deriving DecidableEq

open rzg2l_reset

def r9a08g045_resets : List rzg2l_reset := [
  DEF_RST R9A08G045_GIC600_GICRESET_N 0x814 0,
  DEF_RST R9A08G045_GIC600_DBG_GICRESET_N 0x814 1,
  DEF_RST R9A08G045_IA55_RESETN 0x818 0,
  DEF_RST R9A08G045_DMAC_ARESETN 0x82c 0,
  DEF_RST R9A08G045_DMAC_RST_ASYNC 0x82c 1,
  DEF_RST R9A08G045_OSTM0_PRESETZ 0x834 0,
  DEF_RST R9A08G045_OSTM1_PRESETZ 0x834 1,
  DEF_RST R9A08G045_OSTM2_PRESETZ 0x834 2,
  DEF_RST R9A08G045_OSTM3_PRESETZ 0x834 3,
  DEF_RST R9A08G045_OSTM4_PRESETZ 0x834 4,
  DEF_RST R9A08G045_OSTM5_PRESETZ 0x834 5,
  DEF_RST R9A08G045_OSTM6_PRESETZ 0x834 6,
  DEF_RST R9A08G045_OSTM7_PRESETZ 0x834 7,
  DEF_RST R9A08G045_MTU_X_PRESET_MTU3 0x838 0,
  DEF_RST R9A08G045_POE3_RST_M_REG 0x83c 0,
  DEF_RST R9A08G045_GPT_RST_C 0x840 0,
  DEF_RST R9A08G045_POEG_A_RST 0x844 0,
  DEF_RST R9A08G045_POEG_B_RST 0x844 1,
  DEF_RST R9A08G045_POEG_C_RST 0x844 2,
  DEF_RST R9A08G045_POEG_D_RST 0x844 3,
  DEF_RST R9A08G045_WDT0_PRESETN 0x848 0,
  DEF_RST R9A08G045_SPI_HRESETN 0x850 0,
  DEF_RST R9A08G045_SPI_ARESETN 0x850 1,
  DEF_RST R9A08G045_SDHI0_IXRST 0x854 0,
  DEF_RST R9A08G045_SDHI1_IXRST 0x854 1,
  DEF_RST R9A08G045_SDHI2_IXRST 0x854 2,
  DEF_RST R9A08G045_SSI0_RST_M2_REG 0x870 0,
  DEF_RST R9A08G045_SSI1_RST_M2_REG 0x870 1,
  DEF_RST R9A08G045_SSI2_RST_M2_REG 0x870 2,
  DEF_RST R9A08G045_SSI3_RST_M2_REG 0x870 3,
  DEF_RST R9A08G045_SRC_RST 0x874 0,
  DEF_RST R9A08G045_USB_U2H0_HRESETN 0x878 0,
  DEF_RST R9A08G045_USB_U2H1_HRESETN 0x878 1,
  DEF_RST R9A08G045_USB_U2P_EXL_SYSRST 0x878 2,
  DEF_RST R9A08G045_USB_PRESETN 0x878 3,
  DEF_RST R9A08G045_ETH0_RST_HW_N 0x87c 0,
  DEF_RST R9A08G045_ETH1_RST_HW_N 0x87c 1,
  DEF_RST R9A08G045_I2C0_MRST 0x880 0,
  DEF_RST R9A08G045_I2C1_MRST 0x880 1,
  DEF_RST R9A08G045_I2C2_MRST 0x880 2,
  DEF_RST R9A08G045_I2C3_MRST 0x880 3,
  DEF_RST R9A08G045_SCIF0_RST_SYSTEM_N 0x884 0,
  DEF_RST R9A08G045_SCIF1_RST_SYSTEM_N 0x884 1,
  DEF_RST R9A08G045_SCIF2_RST_SYSTEM_N 0x884 2,
  DEF_RST R9A08G045_SCIF3_RST_SYSTEM_N 0x884 3,
  DEF_RST R9A08G045_SCIF4_RST_SYSTEM_N 0x884 4,
  DEF_RST R9A08G045_SCIF5_RST_SYSTEM_N 0x884 5,
  DEF_RST R9A08G045_SCI0_RST 0x888 0,
  DEF_RST R9A08G045_SCI1_RST 0x888 1,
  DEF_RST R9A08G045_RSPI0_RST 0x890 0,
  DEF_RST R9A08G045_RSPI1_RST 0x890 1,
  DEF_RST R9A08G045_RSPI2_RST 0x890 2,
  DEF_RST R9A08G045_RSPI3_RST 0x890 3,
  DEF_RST R9A08G045_RSPI4_RST 0x890 4,
  DEF_RST R9A08G045_CANFD_RSTP_N 0x894 0,
  DEF_RST R9A08G045_CANFD_RSTC_N 0x894 1,
  DEF_RST R9A08G045_GPIO_RSTN 0x898 0,
  DEF_RST R9A08G045_GPIO_PORT_RESETN 0x898 1,
  DEF_RST R9A08G045_GPIO_SPARE_RESETN 0x898 2,
  DEF_RST R9A08G045_ADC_PRESETN 0x8a8 0,
  DEF_RST R9A08G045_ADC_ADRST_N 0x8a8 1,
  DEF_RST R9A08G045_TSU_PRESETN 0x8ac 0,
  DEF_RST R9A08G045_PCI_ARESETN 0x908 0,
  DEF_RST R9A08G045_PCI_RST_B 0x908 1,
  DEF_RST R9A08G045_PCI_RST_GP_B 0x908 2,
  DEF_RST R9A08G045_PCI_RST_PS_B 0x908 3,
  DEF_RST R9A08G045_PCI_RST_RSM_B 0x908 4,
  DEF_RST R9A08G045_PCI_RST_CFG_B 0x908 5,
  DEF_RST R9A08G045_PCI_RST_LOAD_B 0x908 6,
  DEF_RST R9A08G045_SPDIF_RST 0x90c 0,
  DEF_RST R9A08G045_I3C_TRESETN 0x910 0,
  DEF_RST R9A08G045_I3C_PRESETN 0x910 1,
  DEF_RST R9A08G045_VBAT_BRESETN 0x914 0
]

def rzg2l_reset.id : rzg2l_reset → dt_reset
  | DEF_RST id _ _ => id

def rzg2l_reset.off : rzg2l_reset → Nat
  | DEF_RST _ off _ => off

def rzg2l_reset.bit : rzg2l_reset → Nat
  | DEF_RST _ _ bit => bit

/-! ## Register field geometry -/

/-- The bit position argument of a packed field (`none` for a field the C
file only names). -/
def reg_field.bitpos? : reg_field → Option Nat
  | DDIV_PACK _ bitpos _ => some bitpos
  | SEL_PLL_PACK _ bitpos _ => some bitpos
  | header_field _ => none

/-- The size argument, in bits, of a packed field (`none` for a field the C
file only names). -/
def reg_field.size? : reg_field → Option Nat
  | DDIV_PACK _ _ size => some size
  | SEL_PLL_PACK _ _ size => some size
  | header_field _ => none

/-- The `conf` argument of a mux or divider entry: the register field its
selector or divisor code is written to. -/
def cpg_core_clk.conf_field : cpg_core_clk → Option reg_field
  | DEF_MUX _ _ conf _ => some conf
  | DEF_SD_MUX _ _ conf _ _ _ _ _ => some conf
  | DEF_G3S_DIV _ _ _ conf _ _ _ _ _ _ => some conf
  | _ => none

/-- The `conf` fields of the mux and divider entries that the C file defines
itself, in table order. -/
def written_fields : List reg_field :=
  (r9a08g045_core_clks.filterMap (fun c => c.conf_field)).filter
    (fun f => f.size?.isSome)

/-- Whether an entry is a mux (`DEF_MUX` or `DEF_SD_MUX`). -/
def cpg_core_clk.is_mux : cpg_core_clk → Bool
  | DEF_MUX _ _ _ _ => true
  | DEF_SD_MUX _ _ _ _ _ _ _ _ => true
  | _ => false

/-! ## Module stop records -/

/-- Offset of `MCPU3_MSTOP`, the one module-stop register the C file defines. -/
def MCPU3_MSTOP_offset : Nat := 0xB90

/-- Offset of a module-stop register: `0xB90` for `MCPU3_MSTOP`, and for the
other names the value `hd` that the driver header gives them. -/
def mstop_reg.offset (hd : mstop_reg → Nat) : mstop_reg → Nat
  | MCPU3_MSTOP => MCPU3_MSTOP_offset
  | r => hd r

/-- Sample offsets for the module-stop registers named by the driver header,
standing for one possible header. -/
def sample_mstop_offsets : mstop_reg → Nat
  | PERI_CPU_MSTOP => 0xB70
  | REG1_MSTOP => 0xB80
  | REG0_MSTOP => 0xB7C
  | MCPU1_MSTOP => 0xB64
  | MCPU2_MSTOP => 0xB68
  | MCPU3_MSTOP => 0xB90
  | PERI_COM_MSTOP => 0xB6C

/-- The bit mask of a module-stop argument; the literal `0` has none. -/
def mstop_arg.bits? : mstop_arg → Option Nat
  | no_mstop => none
  | MSTOP _ bits => some bits

/-- Whether two module-stop arguments claim a common bit of one register,
registers being compared with `eqv`. -/
def mstop_arg.overlaps (eqv : mstop_reg → mstop_reg → Bool) : mstop_arg → mstop_arg → Bool
  | MSTOP ra ma, MSTOP rb mb => eqv ra rb && decide (ma &&& mb ≠ 0)
  | _, _ => false

set_option maxRecDepth 1000000

/-! ## Identifier numbering -/

theorem dt_core_clk_toCtorIdx_inj {a b : dt_core_clk} (e : a.toCtorIdx = b.toCtorIdx) :
    a = b := by
  have e2 := congrArg dt_core_clk.ofNat e
  simpa [dt_core_clk.ofNat_toCtorIdx] using e2

theorem dt_mod_clk_toCtorIdx_inj {a b : dt_mod_clk} (e : a.toCtorIdx = b.toCtorIdx) :
    a = b := by
  have e2 := congrArg dt_mod_clk.ofNat e
  simpa [dt_mod_clk.ofNat_toCtorIdx] using e2

theorem clk_ids_toCtorIdx_inj {a b : clk_ids} (e : a.toCtorIdx = b.toCtorIdx) : a = b := by
  have e2 := congrArg clk_ids.ofNat e
  simpa [clk_ids.ofNat_toCtorIdx] using e2

theorem clk_ids_val_eq (h : dt_bindings) (k : clk_ids) :
    k.val h = LAST_DT_CORE_CLK h + 1 + k.toCtorIdx := by
  cases k <;> rfl

theorem sample_core_injective : Function.Injective sample_bindings.core :=
  fun _ _ e => dt_core_clk_toCtorIdx_inj e

theorem sample_mod_injective : Function.Injective sample_bindings.mod :=
  fun _ _ e => dt_mod_clk_toCtorIdx_inj e

theorem sample_core_le_last (c : dt_core_clk) :
    sample_bindings.core c ≤ LAST_DT_CORE_CLK sample_bindings := by
  cases c <;> decide

/-- When the header numbers the core names injectively and none above
`LAST_DT_CORE_CLK`, two identifiers have the same number only if they are the
same identifier. -/
theorem core_id_val_inj (h : dt_bindings) (hinj : Function.Injective h.core)
    (hlast : ∀ c, h.core c ≤ LAST_DT_CORE_CLK h) (a b : core_id) :
    a.val h = b.val h ↔ a = b := by
  constructor
  · intro e
    cases a with
    | dt c =>
      cases b with
      | dt d => exact congrArg core_id.dt (hinj e)
      | enumerator l =>
        have h1 := hlast c
        have h2 := clk_ids_val_eq h l
        simp only [core_id.val] at e
        omega
    | enumerator k =>
      cases b with
      | dt d =>
        have h1 := hlast d
        have h2 := clk_ids_val_eq h k
        simp only [core_id.val] at e
        omega
      | enumerator l =>
        have h1 := clk_ids_val_eq h k
        have h2 := clk_ids_val_eq h l
        simp only [core_id.val] at e
        exact congrArg core_id.enumerator (clk_ids_toCtorIdx_inj (by omega))
  · rintro rfl
    rfl

theorem same_id_eq_same_name (h : dt_bindings) (hinj : Function.Injective h.core)
    (hlast : ∀ c, h.core c ≤ LAST_DT_CORE_CLK h) : same_id h = same_name := by
  funext a b
  simp only [same_id, same_name, core_id_val_inj h hinj hlast a b]

theorem same_id_of_same_name (h : dt_bindings) {a b : core_id} (e : same_name a b = true) :
    same_id h a b = true := by
  simp only [same_name, decide_eq_true_eq] at e
  simp [same_id, e]

theorem designates_of_same_name (h : dt_bindings) {r : parent_ref} {c : cpg_core_clk}
    (e : r.designates same_name c = true) : r.designates (same_id h) c = true := by
  cases r with
  | by_id i => exact same_id_of_same_name h e
  | by_name s => exact e

/-! ## Walks in a parent graph -/

theorem hops_root {α : Type} {par : α → List α} {root : α} (hroot : par root = [])
    {j : Nat} {b : α} (hw : hops par root j b) : j = 0 ∧ b = root := by
  cases hw with
  | here => exact ⟨rfl, rfl⟩
  | step hp _ => rw [hroot] at hp; cases hp

theorem settles_hops {α : Type} [DecidableEq α] (par : α → List α) (root : α)
    (hroot : par root = []) :
    ∀ (k : Nat) (a : α), settles par root k a = true →
      ∀ (j : Nat) (b : α), hops par a j b → j ≤ k ∧ (par b = [] → b = root) := by
  intro k
  induction k with
  | zero =>
    intro a hs j b hw
    simp only [settles, decide_eq_true_eq] at hs
    subst hs
    obtain ⟨hj, hb⟩ := hops_root hroot hw
    exact ⟨by omega, fun _ => hb⟩
  | succ k ih =>
    intro a hs j b hw
    simp only [settles, Bool.or_eq_true, decide_eq_true_eq, Bool.and_eq_true,
      Bool.not_eq_true_eq_eq_false, List.all_eq_true] at hs
    rcases hs with hs | ⟨hne, hall⟩
    · subst hs
      obtain ⟨hj, hb⟩ := hops_root hroot hw
      exact ⟨by omega, fun _ => hb⟩
    · cases hw with
      | here =>
        refine ⟨by omega, fun hb => ?_⟩
        rw [hb] at hne
        cases hne
      | step hp hrest =>
        obtain ⟨hj, hb⟩ := ih _ (hall _ hp) _ _ hrest
        exact ⟨by omega, hb⟩

theorem settles_walk {α : Type} [DecidableEq α] (par : α → List α) (root : α)
    (hroot : par root = []) (pick : α → Nat) :
    ∀ (k : Nat) (a : α), settles par root k a = true → walk par pick k a = some root := by
  intro k
  induction k with
  | zero =>
    intro a hs
    simp only [settles, decide_eq_true_eq] at hs
    subst hs
    simp [walk, hroot]
  | succ k ih =>
    intro a hs
    simp only [settles, Bool.or_eq_true, decide_eq_true_eq, Bool.and_eq_true,
      Bool.not_eq_true_eq_eq_false, List.all_eq_true] at hs
    rcases hs with hs | ⟨hne, hall⟩
    · subst hs
      simp [walk, hroot]
    · unfold walk
      split
      · rename_i he
        rw [he] at hne
        cases hne
      · rename_i p ps he
        apply ih
        apply hall
        rw [he]
        have hlt : pick a % (ps.length + 1) < (p :: ps).length := by
          simp only [List.length_cons]
          exact Nat.mod_lt _ (by omega)
        rw [List.getD_eq_getElem _ _ hlt]
        exact List.getElem_mem hlt

theorem hops_trans {α : Type} {par : α → List α} {a b c : α} {j k : Nat}
    (h1 : hops par a j b) (h2 : hops par b k c) : hops par a (j + k) c := by
  induction h1 with
  | here => simpa using h2
  | step hp _ ih =>
    have e := hops.step hp (ih h2)
    rw [show ∀ x : Nat, x + 1 + k = x + k + 1 from fun x => by omega]
    exact e

theorem hops_repeat {α : Type} {par : α → List α} {a : α} {j : Nat}
    (hw : hops par a j a) : ∀ m : Nat, hops par a (m * j) a := by
  intro m
  induction m with
  | zero => simpa using hops.here a
  | succ m ih =>
    rw [Nat.succ_mul]
    exact hops_trans ih hw

/-- A node from which every walk settles at the root lies on no cycle. -/
theorem settles_no_cycle {α : Type} [DecidableEq α] (par : α → List α) (root : α)
    (hroot : par root = []) {k : Nat} {a : α} (hs : settles par root k a = true)
    {j : Nat} (hw : hops par a j a) : j = 0 := by
  have hb := (settles_hops par root hroot k a hs _ _ (hops_repeat hw (k + 1))).1
  rcases Nat.eq_zero_or_pos j with h0 | hpos
  · exact h0
  · have : (k + 1) * 1 ≤ (k + 1) * j := Nat.mul_le_mul_left _ hpos
    omega

/-! ## Facts about the tables as written -/

theorem core_refs_precede :
    ∀ (i : Nat) (hi : i < r9a08g045_core_clks.length),
      ∀ r ∈ (r9a08g045_core_clks[i]).parent_refs,
        ∃ p ∈ r9a08g045_core_clks.take i, r.designates same_name p = true := by
  decide

theorem mod_parents_are_core :
    ∀ m ∈ r9a08g045_mod_clks,
      ∃ c ∈ r9a08g045_core_clks, same_name c.id m.parent = true := by
  decide

theorem extal_parentless : clk_node.parents same_name extal = [] := by
  decide

theorem all_nodes_settle :
    ∀ n ∈ all_nodes, settles (clk_node.parents same_name) extal 7 n = true := by
  decide

theorem only_extal_parentless :
    ∀ n ∈ all_nodes, (clk_node.parents same_name n = [] ↔ n = extal) := by
  decide

theorem refs_resolve_once :
    ∀ n ∈ all_nodes, ∀ r ∈ n.parent_refs, (resolve same_name r).length = 1 := by
  decide

theorem spi_clk_seven_hops :
    hops (clk_node.parents same_name)
      (module (DEF_MOD "spi_clk" R9A08G045_SPI_CLK R9A08G045_CLK_SPI1 0x550 2
        (MSTOP MCPU1_MSTOP (BIT 1)))) 7 extal := by
  have h1 : core (DEF_FIXED "SPI1" R9A08G045_CLK_SPI1 R9A08G045_CLK_SPI0 1 2) ∈
      clk_node.parents same_name
        (module (DEF_MOD "spi_clk" R9A08G045_SPI_CLK R9A08G045_CLK_SPI1 0x550 2
          (MSTOP MCPU1_MSTOP (BIT 1)))) := by decide
  have h2 : core (DEF_G3S_DIV "SPI0" R9A08G045_CLK_SPI0 CLK_SEL_SPI G3S_DIV_SPI
      G3S_DIV_SPI_STS dtable_1_32 400000000 200000000 CLK_SET_RATE_PARENT
      rzg3s_cpg_div_clk_notifier) ∈
      clk_node.parents same_name
        (core (DEF_FIXED "SPI1" R9A08G045_CLK_SPI1 R9A08G045_CLK_SPI0 1 2)) := by decide
  have h3 : core (DEF_MUX ".sel_spi" CLK_SEL_SPI G3S_SEL_SPI sel_spi_octa) ∈
      clk_node.parents same_name
        (core (DEF_G3S_DIV "SPI0" R9A08G045_CLK_SPI0 CLK_SEL_SPI G3S_DIV_SPI
          G3S_DIV_SPI_STS dtable_1_32 400000000 200000000 CLK_SET_RATE_PARENT
          rzg3s_cpg_div_clk_notifier)) := by decide
  have h4 : core (DEF_FIXED ".pll3_div2_2" CLK_PLL3_DIV2_2 CLK_PLL3_DIV2 1 2) ∈
      clk_node.parents same_name
        (core (DEF_MUX ".sel_spi" CLK_SEL_SPI G3S_SEL_SPI sel_spi_octa)) := by decide
  have h5 : core (DEF_FIXED ".pll3_div2" CLK_PLL3_DIV2 CLK_PLL3 1 2) ∈
      clk_node.parents same_name
        (core (DEF_FIXED ".pll3_div2_2" CLK_PLL3_DIV2_2 CLK_PLL3_DIV2 1 2)) := by decide
  have h6 : core (DEF_FIXED ".pll3" CLK_PLL3 CLK_EXTAL 200 3) ∈
      clk_node.parents same_name
        (core (DEF_FIXED ".pll3_div2" CLK_PLL3_DIV2 CLK_PLL3 1 2)) := by decide
  have h7 : extal ∈
      clk_node.parents same_name (core (DEF_FIXED ".pll3" CLK_PLL3 CLK_EXTAL 200 3)) := by
    decide
  exact hops.step h1 (hops.step h2 (hops.step h3 (hops.step h4 (hops.step h5
    (hops.step h6 (hops.step h7 (hops.here extal)))))))

theorem spi_clk_is_node :
    module (DEF_MOD "spi_clk" R9A08G045_SPI_CLK R9A08G045_CLK_SPI1 0x550 2
      (MSTOP MCPU1_MSTOP (BIT 1))) ∈ all_nodes := by
  decide

/-! ## Claims -/

/-- C1: every parent reference in the descriptor tables resolves to an
already-defined node.  For the entry at index `i` of `r9a08g045_core_clks`,
each of its parent references (the parent identifier, or for a mux each name
of its candidate list) designates an entry among the first `i` entries, that
is, at a strictly smaller index; and the parent identifier of every entry of
`r9a08g045_mod_clks` is the identifier of an entry of `r9a08g045_core_clks`.
So a resolution that walks the tables in array order never meets an undefined
or later-defined parent.  This holds whatever numbers the binding header gives
to the identifiers. -/
theorem parent_refs_defined_earlier (h : dt_bindings) :
    (∀ (i : Nat) (hi : i < r9a08g045_core_clks.length),
      ∀ r ∈ (r9a08g045_core_clks[i]).parent_refs,
        ∃ p ∈ r9a08g045_core_clks.take i, r.designates (same_id h) p = true) ∧
    (∀ m ∈ r9a08g045_mod_clks,
      ∃ c ∈ r9a08g045_core_clks, same_id h c.id m.parent = true) := by
  constructor
  · intro i hi r hr
    obtain ⟨p, hp, hd⟩ := core_refs_precede i hi r hr
    exact ⟨p, hp, designates_of_same_name h hd⟩
  · intro m hm
    obtain ⟨c, hc, hd⟩ := mod_parents_are_core m hm
    exact ⟨c, hc, same_id_of_same_name h hd⟩

/-- C2: the clock graph of `r9a08g045_core_clks` and `r9a08g045_mod_clks` is
acyclic and single-rooted.  Provided the binding header numbers the core clock
names injectively and none above `R9A08G045_CLK_CANFD`: every parent reference
of every node designates exactly one core entry; from any core or module clock
every chain of parent hops (through any candidate parent at a mux) has at most
7 hops and can only stop, for lack of a parent, at the input node `extal`; no
node reaches itself by one or more hops; `extal` is the only node without
parent; following parents with 7 units of fuel returns `extal` from every
node and for every choice of candidates, so that recursion on the parent
terminates on this table; and the bound 7 is attained, by the module clock
`spi_clk`. -/
theorem clock_graph_rooted_at_extal (h : dt_bindings)
    (hinj : Function.Injective h.core)
    (hlast : ∀ c, h.core c ≤ LAST_DT_CORE_CLK h) :
    (∀ n ∈ all_nodes, ∀ r ∈ n.parent_refs, (resolve (same_id h) r).length = 1) ∧
    (∀ n ∈ all_nodes, ∀ (k : Nat) (b : clk_node),
      hops (clk_node.parents (same_id h)) n k b →
        k ≤ 7 ∧ (clk_node.parents (same_id h) b = [] → b = extal)) ∧
    (∀ n ∈ all_nodes, ∀ k : Nat, hops (clk_node.parents (same_id h)) n k n → k = 0) ∧
    (∀ n ∈ all_nodes, (clk_node.parents (same_id h) n = [] ↔ n = extal)) ∧
    (∀ n ∈ all_nodes, ∀ pick : clk_node → Nat,
      walk (clk_node.parents (same_id h)) pick 7 n = some extal) ∧
    (∃ n ∈ all_nodes, hops (clk_node.parents (same_id h)) n 7 extal) := by
  rw [same_id_eq_same_name h hinj hlast]
  refine ⟨refs_resolve_once, ?_, ?_, only_extal_parentless, ?_,
    ⟨_, spi_clk_is_node, spi_clk_seven_hops⟩⟩
  · intro n hn k b hw
    exact settles_hops _ _ extal_parentless 7 n (all_nodes_settle n hn) k b hw
  · intro n hn k hw
    exact settles_no_cycle _ _ extal_parentless (all_nodes_settle n hn) hw
  · intro n hn pick
    exact settles_walk _ _ extal_parentless pick 7 n (all_nodes_settle n hn)

/-- Witness for C2: the sample numbering meets both hypotheses, so the
conclusion holds for it. -/
theorem clock_graph_rooted_at_extal_witness :
    Function.Injective sample_bindings.core ∧
    (∀ c, sample_bindings.core c ≤ LAST_DT_CORE_CLK sample_bindings) ∧
    (∀ n ∈ all_nodes, ∀ r ∈ n.parent_refs,
      (resolve (same_id sample_bindings) r).length = 1) ∧
    (∀ n ∈ all_nodes, ∀ (k : Nat) (b : clk_node),
      hops (clk_node.parents (same_id sample_bindings)) n k b →
        k ≤ 7 ∧ (clk_node.parents (same_id sample_bindings) b = [] → b = extal)) ∧
    (∀ n ∈ all_nodes, ∀ k : Nat,
      hops (clk_node.parents (same_id sample_bindings)) n k n → k = 0) ∧
    (∀ n ∈ all_nodes, (clk_node.parents (same_id sample_bindings) n = [] ↔ n = extal)) ∧
    (∀ n ∈ all_nodes, ∀ pick : clk_node → Nat,
      walk (clk_node.parents (same_id sample_bindings)) pick 7 n = some extal) ∧
    (∃ n ∈ all_nodes, hops (clk_node.parents (same_id sample_bindings)) n 7 extal) :=
  ⟨sample_core_injective, sample_core_le_last,
    clock_graph_rooted_at_extal sample_bindings sample_core_injective sample_core_le_last⟩

/-! ## Critical module clocks -/

theorem mod_clks_numbered_eq (h : dt_bindings) (hmod : Function.Injective h.mod)
    (x : dt_mod_clk) :
    mod_clks_numbered h (MOD_CLK_BASE h + h.mod x) =
      r9a08g045_mod_clks.filter (fun m => decide (m.id = x)) := by
  unfold mod_clks_numbered
  congr 1
  funext m
  simp [rzg2l_mod_clk.clk_id, hmod.eq_iff]

theorem core_id_below_mod_base (h : dt_bindings)
    (hlast : ∀ c, h.core c ≤ LAST_DT_CORE_CLK h) (i : core_id) :
    i.val h < MOD_CLK_BASE h := by
  cases i with
  | dt c =>
    have h1 := hlast c
    simp only [core_id.val, MOD_CLK_BASE]
    omega
  | enumerator k =>
    simp only [core_id.val, MOD_CLK_BASE]
    cases k <;> simp only [clk_ids.val] <;> omega

/-- C3: every critical-clock identifier names an existing gate node.  The list
`r9a08g045_crit_mod_clks` has five elements, each of the form
`MOD_CLK_BASE + id`; provided the binding header numbers the module clock names
injectively, exactly one entry of `r9a08g045_mod_clks` has that number, and that
entry is a gate descriptor (a `DEF_MOD` entry).  When in addition no core name
is numbered above `LAST_DT_CORE_CLK`, no core clock has that number. -/
theorem crit_mod_clks_name_gates (h : dt_bindings) (hmod : Function.Injective h.mod) :
    (r9a08g045_crit_mod_clks h).length = 5 ∧
    ∀ x ∈ r9a08g045_crit_mod_clks h,
      (∃ name id parent off bit mstop,
        mod_clks_numbered h x = [DEF_MOD name id parent off bit mstop]) ∧
      ((∀ c, h.core c ≤ LAST_DT_CORE_CLK h) →
        ∀ c ∈ r9a08g045_core_clks, c.id.val h ≠ x) := by
  refine ⟨rfl, ?_⟩
  intro x hx
  refine ⟨?_, ?_⟩
  · simp only [r9a08g045_crit_mod_clks, List.mem_cons, List.mem_singleton,
      List.not_mem_nil, or_false] at hx
    rcases hx with rfl | rfl | rfl | rfl | rfl
    · rw [mod_clks_numbered_eq h hmod]
      exact ⟨"gic_gicclk", R9A08G045_GIC600_GICCLK, R9A08G045_CLK_P1, 0x514, 0, no_mstop,
        by decide⟩
    · rw [mod_clks_numbered_eq h hmod]
      exact ⟨"ia55_pclk", R9A08G045_IA55_PCLK, R9A08G045_CLK_P2, 0x518, 0, no_mstop,
        by decide⟩
    · rw [mod_clks_numbered_eq h hmod]
      exact ⟨"ia55_clk", R9A08G045_IA55_CLK, R9A08G045_CLK_P1, 0x518, 1,
        MSTOP PERI_CPU_MSTOP (BIT 13), by decide⟩
    · rw [mod_clks_numbered_eq h hmod]
      exact ⟨"dmac_aclk", R9A08G045_DMAC_ACLK, R9A08G045_CLK_P3, 0x52c, 0,
        MSTOP REG1_MSTOP (BIT 2 ||| BIT 3), by decide⟩
    · rw [mod_clks_numbered_eq h hmod]
      exact ⟨"vbat_bclk", R9A08G045_VBAT_BCLK, R9A08G045_OSCCLK, 0x614, 0,
        MSTOP MCPU3_MSTOP (BIT 8), by decide⟩
  · intro hlast c _ hc
    have h1 := core_id_below_mod_base h hlast c.id
    have h2 : MOD_CLK_BASE h ≤ x := by
      simp only [r9a08g045_crit_mod_clks, List.mem_cons, List.mem_singleton,
        List.not_mem_nil, or_false] at hx
      rcases hx with rfl | rfl | rfl | rfl | rfl <;> omega
    omega

/-- Witness for C3: the sample numbering is injective on the module clock
names and numbers no core name above `LAST_DT_CORE_CLK`, so each critical
number names exactly one module clock entry, a `DEF_MOD` gate, and no core
clock. -/
theorem crit_mod_clks_name_gates_witness :
    Function.Injective sample_bindings.mod ∧
    (r9a08g045_crit_mod_clks sample_bindings).length = 5 ∧
    ∀ x ∈ r9a08g045_crit_mod_clks sample_bindings,
      (∃ name id parent off bit mstop,
        mod_clks_numbered sample_bindings x = [DEF_MOD name id parent off bit mstop]) ∧
      (∀ c ∈ r9a08g045_core_clks, c.id.val sample_bindings ≠ x) :=
  ⟨sample_mod_injective,
    (crit_mod_clks_name_gates sample_bindings sample_mod_injective).1,
    fun x hx =>
      ⟨((crit_mod_clks_name_gates sample_bindings sample_mod_injective).2 x hx).1,
        ((crit_mod_clks_name_gates sample_bindings sample_mod_injective).2 x hx).2
          sample_core_le_last⟩⟩

/-- C4: every coupled pair shares exactly one physical bit.  The `DEF_COUPLED`
entries of `r9a08g045_mod_clks` are `eth0_axi` and `eth0_chi` at offset `0x57c`
bit 0 and `eth1_axi` and `eth1_chi` at offset `0x57c` bit 1; for the coupled
entry at any index there is exactly one other index holding a coupled entry
with the same offset and bit; and coupled entries of different pairs differ in
the bit. -/
theorem coupled_gates_pair_up :
    (r9a08g045_mod_clks.filter (fun m => m.is_coupled)).map
        (fun m => (m.name, m.off, m.bit)) =
      [("eth0_axi", 0x57c, 0), ("eth0_chi", 0x57c, 0),
       ("eth1_axi", 0x57c, 1), ("eth1_chi", 0x57c, 1)] ∧
    (∀ (i : Nat) (hi : i < r9a08g045_mod_clks.length),
      (r9a08g045_mod_clks[i]).is_coupled = true →
        ((List.range r9a08g045_mod_clks.length).filter (fun j =>
          decide (j ≠ i) &&
            (r9a08g045_mod_clks[j]?).any (fun b =>
              b.is_coupled && (r9a08g045_mod_clks[i]).same_bit b))).length = 1) ∧
    (∀ a ∈ r9a08g045_mod_clks, ∀ b ∈ r9a08g045_mod_clks,
      a.is_coupled = true → b.is_coupled = true → a.same_bit b = false →
        a.off = b.off ∧ a.bit ≠ b.bit) := by
  decide

/-! ## Lookup tables -/

/-- C5: the lookup tables contain no duplicate codes.  In each of `dtable_1_2`,
`dtable_1_8` and `dtable_1_32` the entries before the last one (the sentinel)
have pairwise distinct codes and pairwise distinct divisors, and the raw
selector values of `mtable_sd` and of `mtable_pll4` are pairwise distinct. -/
theorem lookup_tables_nodup :
    (∀ t ∈ divider_tables,
      (t.dropLast.map (fun e => e.val)).Nodup ∧ (t.dropLast.map (fun e => e.div)).Nodup) ∧
    mtable_sd.Nodup ∧ mtable_pll4.Nodup := by
  decide

/-- C6: every divider table ends in a recognizable sentinel.  In each of
`dtable_1_2`, `dtable_1_8` and `dtable_1_32` (the tables the divider entries of
`r9a08g045_core_clks` use) the last entry is `{ 0, 0 }`, no entry before it has
divisor 0, and a scan that stops at the first zero divisor visits exactly the
entries before the last one: the codes and divisors listed. -/
theorem divider_tables_sentinel :
    (∀ c ∈ r9a08g045_core_clks, ∀ t ∈ c.dtable, t ∈ divider_tables) ∧
    divider_tables.map (fun t => (div_table_scan t).map (fun e => (e.val, e.div))) =
      [[(0, 1), (1, 2)],
       [(0, 1), (1, 2), (2, 4), (3, 8)],
       [(0, 1), (1, 2), (2, 4), (3, 8), (4, 32)]] ∧
    ∀ t ∈ divider_tables,
      t.getLast? = some ⟨0, 0⟩ ∧
      (∀ e ∈ t.dropLast, e.div ≠ 0) ∧
      div_table_scan t = t.dropLast := by
  decide

/-- C7, as stated, fails: the last element of a mux table is not a marker but
the raw selector code of a candidate parent.  The mux `.sel_sd0` uses
`mtable_sd`, whose last element 3 is the code of its candidate at position 2
(`.pll2_div6`). -/
theorem mux_table_last_is_a_code :
    ¬ (∀ c ∈ r9a08g045_core_clks, ∀ t ∈ c.mtable, ∀ last ∈ t.getLast?,
        ∀ i : Nat, c.selector_code i ≠ some last) := by
  intro hall
  exact hall
    (DEF_SD_MUX ".sel_sd0" CLK_SEL_SDHI0 G3S_SEL_SDHI0 G3S_SEL_SDHI0_STS sel_sdhi
      mtable_sd no_flags NULL)
    (by decide) mtable_sd rfl 3 rfl 2 (by decide)

/-- C7, amended: the mux tables carry no terminating sentinel.  The mux
tables in use are `mtable_sd` and `mtable_pll4`; each has exactly as many
elements as the candidate parent list of every mux using it, and its last
element is the raw selector code of the last candidate parent of that mux. -/
theorem mux_tables_sized_by_parents :
    (r9a08g045_core_clks.filterMap (fun c => c.mtable)).dedup = [mtable_sd, mtable_pll4] ∧
    ∀ c ∈ r9a08g045_core_clks, ∀ t ∈ c.mtable,
      t.length = c.parent_names.length ∧ t ≠ [] ∧
      c.selector_code (c.parent_names.length - 1) = t.getLast? := by
  decide

/-! ## Fixed-factor clocks -/

/-- C8: the FixedFactor nodes `.pll2` and `.pll3` have parent `extal` and
mul/div = 200/3, and at a parent rate of 24,000,000 Hz their rate
`parent_rate * mul / div` is exactly 1,600,000,000 Hz, with no remainder.  Each
name occurs once in `r9a08g045_core_clks`, its parent argument `CLK_EXTAL` is
the identifier of the input entry `extal` and of no other entry, and the rate
is a function of the parent rate and the two factors of the entry alone. -/
theorem pll2_pll3_rate :
    r9a08g045_core_clks.filter (fun c => decide (c.name = ".pll2")) =
      [DEF_FIXED ".pll2" CLK_PLL2 CLK_EXTAL 200 3] ∧
    r9a08g045_core_clks.filter (fun c => decide (c.name = ".pll3")) =
      [DEF_FIXED ".pll3" CLK_PLL3 CLK_EXTAL 200 3] ∧
    r9a08g045_core_clks.filter (fun c => same_name c.id CLK_EXTAL) =
      [DEF_INPUT "extal" CLK_EXTAL] ∧
    fixed_factor_rate 24000000 200 3 = 1600000000 ∧
    24000000 * 200 = 3 * 1600000000 := by
  decide

/-- C9, as stated, fails: with `extal` at 24,000,000 Hz the fixed-factor node
`.pll2_div6` has parent rate 1,600,000,000 and mul/div = 1/6, and 6 does not
divide 1,600,000,000, although all ancestors of the node are Input or
FixedFactor nodes.  (Evaluated for the sample numbering of the header
names.) -/
theorem pll2_div6_truncates :
    ¬ (∀ c ∈ r9a08g045_core_clks, ∀ f ∈ c.fixed_factor,
        ∀ pr ∈ rate_24mhz sample_bindings f.parent, f.div ∣ pr * f.mult) := by
  intro hall
  exact absurd
    (hall (DEF_FIXED ".pll2_div6" CLK_PLL2_DIV6 CLK_PLL2 1 6) (by decide)
      ⟨CLK_PLL2, 1, 6⟩ rfl 1600000000 (by decide))
    (by decide)

theorem fixed_factor_rates_as_written :
    (r9a08g045_core_clks.filter (fun c =>
        c.fixed_factor.any (fun f =>
          (ff_rate same_name 24000000 r9a08g045_core_clks.length f.parent).isSome))).map
        (fun c => c.name) =
      [".osc_div1000", ".pll2", ".pll3", ".pll4", ".pll6", ".pll2_div2", ".pll2_div2_8",
       ".pll2_div6", ".pll3_div2", ".pll3_div2_2", ".pll3_div2_4", ".pll3_div2_8",
       ".pll3_div6", ".pll6_div2", "M0", "TSU", "P4", "P4_DIV2", "CANFD", "P5", "ZT",
       "OSC", "OSC2", "HP"] ∧
    ∀ c ∈ r9a08g045_core_clks, ∀ f ∈ c.fixed_factor,
      ∀ pr ∈ ff_rate same_name 24000000 r9a08g045_core_clks.length f.parent,
        (c.name ≠ ".pll2_div6" → c.name ≠ ".pll3_div6" →
          f.div ∣ pr * f.mult ∧ fixed_factor_rate pr f.mult f.div * f.div = pr * f.mult) ∧
        (c.name = ".pll2_div6" ∨ c.name = ".pll3_div6" →
          pr * f.mult = 1600000000 ∧ f.div = 6 ∧
          fixed_factor_rate pr f.mult f.div = 266666666 ∧
          pr * f.mult = 266666666 * f.div + 4) := by
  decide

/-- C9, amended: with `extal` at 24,000,000 Hz, and the binding header
numbering the core clock names injectively and none above
`R9A08G045_CLK_CANFD`, the fixed-factor nodes whose ancestors are only Input or
FixedFactor nodes are the 24 listed ones; for each of them other than
`.pll2_div6` and `.pll3_div6`, `div` divides `parent_rate * mul` and
`rate * div = parent_rate * mul` holds exactly; for `.pll2_div6` and
`.pll3_div6` the product is 1,600,000,000, the divisor 6, the rate the rounded
down quotient 266,666,666, and the remainder 4. -/
theorem fixed_factor_exact_except_div6 (h : dt_bindings)
    (hinj : Function.Injective h.core)
    (hlast : ∀ c, h.core c ≤ LAST_DT_CORE_CLK h) :
    (r9a08g045_core_clks.filter (fun c =>
        c.fixed_factor.any (fun f => (rate_24mhz h f.parent).isSome))).map
        (fun c => c.name) =
      [".osc_div1000", ".pll2", ".pll3", ".pll4", ".pll6", ".pll2_div2", ".pll2_div2_8",
       ".pll2_div6", ".pll3_div2", ".pll3_div2_2", ".pll3_div2_4", ".pll3_div2_8",
       ".pll3_div6", ".pll6_div2", "M0", "TSU", "P4", "P4_DIV2", "CANFD", "P5", "ZT",
       "OSC", "OSC2", "HP"] ∧
    ∀ c ∈ r9a08g045_core_clks, ∀ f ∈ c.fixed_factor,
      ∀ pr ∈ rate_24mhz h f.parent,
        (c.name ≠ ".pll2_div6" → c.name ≠ ".pll3_div6" →
          f.div ∣ pr * f.mult ∧ fixed_factor_rate pr f.mult f.div * f.div = pr * f.mult) ∧
        (c.name = ".pll2_div6" ∨ c.name = ".pll3_div6" →
          pr * f.mult = 1600000000 ∧ f.div = 6 ∧
          fixed_factor_rate pr f.mult f.div = 266666666 ∧
          pr * f.mult = 266666666 * f.div + 4) := by
  unfold rate_24mhz
  rw [same_id_eq_same_name h hinj hlast]
  exact fixed_factor_rates_as_written

/-- Witness for the amended C9: the sample numbering meets both hypotheses. -/
theorem fixed_factor_exact_except_div6_witness :
    Function.Injective sample_bindings.core ∧
    (∀ c, sample_bindings.core c ≤ LAST_DT_CORE_CLK sample_bindings) ∧
    ∀ c ∈ r9a08g045_core_clks, ∀ f ∈ c.fixed_factor,
      ∀ pr ∈ rate_24mhz sample_bindings f.parent,
        (c.name ≠ ".pll2_div6" → c.name ≠ ".pll3_div6" →
          f.div ∣ pr * f.mult ∧ fixed_factor_rate pr f.mult f.div * f.div = pr * f.mult) ∧
        (c.name = ".pll2_div6" ∨ c.name = ".pll3_div6" →
          pr * f.mult = 1600000000 ∧ f.div = 6 ∧
          fixed_factor_rate pr f.mult f.div = 266666666 ∧
          pr * f.mult = 266666666 * f.div + 4) :=
  ⟨sample_core_injective, sample_core_le_last,
    (fixed_factor_exact_except_div6 sample_bindings sample_core_injective
      sample_core_le_last).2⟩

/-- C10: no FixedFactor descriptor is invalid.  Every `DEF_FIXED` entry of
`r9a08g045_core_clks` (there are 31) has a non-zero divisor and a non-zero
multiplier, so `parent_rate * mul / div` never divides by zero. -/
theorem fixed_factor_divisors_nonzero :
    (r9a08g045_core_clks.filterMap (fun c => c.fixed_factor)).length = 31 ∧
    ∀ c ∈ r9a08g045_core_clks, ∀ f ∈ c.fixed_factor, f.div ≠ 0 ∧ f.mult ≠ 0 := by
  decide

/-! ## Register fields, gate bits and module stop bits -/

/-- C11: every hardware-written field of the tables fits the masked-write
encoding, value in the lower 16 bits.  The divider and selector fields that the
mux and divider entries write and that the C file defines are the ten listed
ones, and for each of them bit position plus size is at most 16; every gate bit
index of `r9a08g045_mod_clks` and every reset bit index of `r9a08g045_resets`
is below 16; and every `MSTOP` bit mask of `r9a08g045_mod_clks` is below
`2 ^ 16`. -/
theorem fields_fit_masked_write :
    written_fields =
      [G3S_SEL_SPI, G3S_SEL_SDHI0, G3S_SEL_SDHI1, G3S_SEL_SDHI2, G3S_SEL_PLL4,
       G3S_DIVPL2B, G3S_DIV_SDHI0, G3S_DIV_SDHI1, G3S_DIV_SDHI2, G3S_DIV_SPI] ∧
    (∀ f ∈ written_fields, ∀ p ∈ f.bitpos?, ∀ w ∈ f.size?, p + w ≤ 16) ∧
    written_fields.map (fun f => (f.bitpos?, f.size?)) =
      [(some 0, some 2), (some 0, some 2), (some 4, some 2), (some 8, some 2),
       (some 6, some 1), (some 4, some 3), (some 0, some 1), (some 4, some 1),
       (some 8, some 1), (some 0, some 3)] ∧
    (∀ m ∈ r9a08g045_mod_clks, m.bit < 16) ∧
    (∀ r ∈ r9a08g045_resets, r.bit < 16) ∧
    (∀ m ∈ r9a08g045_mod_clks, ∀ b ∈ m.mstop.bits?, b < 2 ^ 16) := by
  decide

/-- C15: no physical control bit is aliased except by a coupled pair.  Two
entries of `r9a08g045_mod_clks` at different indices with the same register
offset and bit are both `DEF_COUPLED` entries; every `DEF_MOD` entry is the
only entry of the table on its offset and bit; and two entries of
`r9a08g045_resets` at different indices never have the same offset and bit. -/
theorem control_bits_not_aliased :
    (∀ (i : Nat) (hi : i < r9a08g045_mod_clks.length)
        (j : Nat) (hj : j < r9a08g045_mod_clks.length), i ≠ j →
      (r9a08g045_mod_clks[i]).same_bit (r9a08g045_mod_clks[j]) = true →
        (r9a08g045_mod_clks[i]).is_coupled = true ∧
        (r9a08g045_mod_clks[j]).is_coupled = true) ∧
    (∀ m ∈ r9a08g045_mod_clks, m.is_coupled = false →
      r9a08g045_mod_clks.countP (fun b => m.same_bit b) = 1) ∧
    (∀ (i : Nat) (hi : i < r9a08g045_resets.length)
        (j : Nat) (hj : j < r9a08g045_resets.length), i ≠ j →
      ¬ ((r9a08g045_resets[i]).off = (r9a08g045_resets[j]).off ∧
         (r9a08g045_resets[i]).bit = (r9a08g045_resets[j]).bit)) := by
  decide


theorem mstop_no_overlap_by_name :
    ∀ (i : Nat) (hi : i < r9a08g045_mod_clks.length)
      (j : Nat) (hj : j < r9a08g045_mod_clks.length), i ≠ j →
      (r9a08g045_mod_clks[i]).mstop.overlaps (fun a b => decide (a = b))
        (r9a08g045_mod_clks[j]).mstop = false := by
  decide

theorem mstop_masks_nonzero :
    (r9a08g045_mod_clks.filterMap (fun m => m.mstop.bits?)).length = 49 ∧
    ∀ m ∈ r9a08g045_mod_clks, ∀ b ∈ m.mstop.bits?, b ≠ 0 := by
  decide

theorem sample_mstop_offsets_injective :
    Function.Injective (mstop_reg.offset sample_mstop_offsets) := by
  intro a b e
  cases a <;> cases b <;> first | rfl | (exact absurd e (by decide))

/-- C16: no module stop bit is shared between logical clocks in this table.
Provided the module-stop register names stand for pairwise different offsets
(`MCPU3_MSTOP` is `0xB90`, the other offsets come from the driver header): any
two entries of `r9a08g045_mod_clks` at different indices that carry an `MSTOP`
record on the same stop register have disjoint bit masks, and each of the 49
`MSTOP` records has a non-zero bit mask.  So the stop bits of one module clock
are never stop bits of another. -/
theorem mstop_bits_not_shared (hd : mstop_reg → Nat)
    (hinj : Function.Injective (mstop_reg.offset hd)) :
    (∀ (i : Nat) (hi : i < r9a08g045_mod_clks.length)
        (j : Nat) (hj : j < r9a08g045_mod_clks.length), i ≠ j →
      ∀ (ra : mstop_reg) (ma : Nat) (rb : mstop_reg) (mb : Nat),
        (r9a08g045_mod_clks[i]).mstop = MSTOP ra ma →
        (r9a08g045_mod_clks[j]).mstop = MSTOP rb mb →
        ra.offset hd = rb.offset hd → ma &&& mb = 0) ∧
    (r9a08g045_mod_clks.filterMap (fun m => m.mstop.bits?)).length = 49 ∧
    (∀ m ∈ r9a08g045_mod_clks, ∀ b ∈ m.mstop.bits?, b ≠ 0) := by
  refine ⟨?_, mstop_masks_nonzero.1, mstop_masks_nonzero.2⟩
  intro i hi j hj hij ra ma rb mb ha hb hoff
  have hsame : ra = rb := hinj hoff
  have hno := mstop_no_overlap_by_name i hi j hj hij
  rw [ha, hb] at hno
  simpa [mstop_arg.overlaps, hsame] using hno

/-- Witness for C16: the sample offsets are pairwise different, so the
conclusion holds for them. -/
theorem mstop_bits_not_shared_witness :
    Function.Injective (mstop_reg.offset sample_mstop_offsets) ∧
    (∀ (i : Nat) (hi : i < r9a08g045_mod_clks.length)
        (j : Nat) (hj : j < r9a08g045_mod_clks.length), i ≠ j →
      ∀ (ra : mstop_reg) (ma : Nat) (rb : mstop_reg) (mb : Nat),
        (r9a08g045_mod_clks[i]).mstop = MSTOP ra ma →
        (r9a08g045_mod_clks[j]).mstop = MSTOP rb mb →
        ra.offset sample_mstop_offsets = rb.offset sample_mstop_offsets →
          ma &&& mb = 0) ∧
    (r9a08g045_mod_clks.filterMap (fun m => m.mstop.bits?)).length = 49 ∧
    (∀ m ∈ r9a08g045_mod_clks, ∀ b ∈ m.mstop.bits?, b ≠ 0) :=
  ⟨sample_mstop_offsets_injective,
    mstop_bits_not_shared sample_mstop_offsets sample_mstop_offsets_injective⟩

/-- C17: every lookup code fits the register field it is written to.  The
divider entries whose divisor field the C file defines are `P0`, `SD0`, `SD1`,
`SD2` and `SPI0`, and every code of their divider table before the sentinel is
below `2 ^ size` of that field.  The mux entries are `.sel_spi`, `.sel_sd0`,
`.sel_sd1`, `.sel_sd2` and `.sel_pll4`; each has a selector field defined in
the C file, a mux table (when it has one) with exactly as many elements as its
candidate parent list, and for every candidate position a raw selector value
(the table value, or the position when there is no table) below `2 ^ size` of
the selector field. -/
theorem lookup_codes_fit_fields :
    (r9a08g045_core_clks.filter (fun c =>
        c.dtable.isSome && (c.conf_field.bind reg_field.size?).isSome)).map
        (fun c => c.name) = ["P0", "SD0", "SD1", "SD2", "SPI0"] ∧
    (∀ c ∈ r9a08g045_core_clks, ∀ t ∈ c.dtable,
      ∀ w ∈ c.conf_field.bind reg_field.size?,
        ∀ e ∈ div_table_scan t, e.val < 2 ^ w) ∧
    (r9a08g045_core_clks.filter (fun c => c.is_mux)).map (fun c => c.name) =
      [".sel_spi", ".sel_sd0", ".sel_sd1", ".sel_sd2", ".sel_pll4"] ∧
    (∀ c ∈ r9a08g045_core_clks, c.is_mux = true →
      (∀ t ∈ c.mtable, t.length = c.parent_names.length) ∧
      (c.conf_field.bind reg_field.size?).isSome = true ∧
      ∀ w ∈ c.conf_field.bind reg_field.size?,
        ∀ i : Nat, i < c.parent_names.length →
          (c.selector_code i).isSome = true ∧ ∀ v ∈ c.selector_code i, v < 2 ^ w) := by
  decide

end R9A08G045

namespace panel_hx8394f

open hw_call

/-! ## Properties of the panel operations -/

theorem init_sequence_kinds (o : hw_outcomes) :
    (hx8394f_init_sequence o).map hw_call.kind =
      init_buffers.map (fun d => mipi_dsi_dcs_write_buffer d 0) := by
  rfl

theorem prepare_ret_zero_iff (o : hw_outcomes) (ctx : hx8394) (h : ctx.prepared = false) :
    (hx8394_prepare o ctx).ret = 0 ↔
      (¬ o.regulator_enable < 0 ∧ o.exit_sleep_mode = 0 ∧ o.set_display_on = 0) := by
  by_cases h1 : o.regulator_enable < 0
  · simp [hx8394_prepare, h, h1]
    omega
  · by_cases h2 : o.exit_sleep_mode = 0
    · by_cases h3 : o.set_display_on = 0
      · simp [hx8394_prepare, h, h1, h2, h3]
      · simp [hx8394_prepare, h, h1, h2, h3]
    · simp [hx8394_prepare, h, h1, h2]

theorem prepare_prepared_iff (o : hw_outcomes) (ctx : hx8394) (h : ctx.prepared = false) :
    (hx8394_prepare o ctx).ctx.prepared = true ↔
      (¬ o.regulator_enable < 0 ∧ o.exit_sleep_mode = 0 ∧ o.set_display_on = 0) := by
  by_cases h1 : o.regulator_enable < 0
  · simp [hx8394_prepare, h, h1]
  · by_cases h2 : o.exit_sleep_mode = 0
    · by_cases h3 : o.set_display_on = 0
      · simp [hx8394_prepare, h, h1, h2, h3]
      · simp [hx8394_prepare, h, h1, h2, h3]
    · simp [hx8394_prepare, h, h1, h2]

/-- C12: `hx8394_prepare` is a linear power-up sequence with no retry.  On a
panel that is not prepared: the steps, whatever they answer, are one regulator
enable of `vcc`, the reset pulse 1 then 0 (only with a reset GPIO), the init
buffers each written once in order, exit sleep and display on.  When the
regulator enable fails (negative code) nothing else is called; when exit sleep
or display on fails (non-zero code) the calls stop with that call; in each
case the failing code is returned and the context, with `prepared = false`, is
left as it was.  When all three succeed every step is made, 0 is returned and
`prepared` is set; and that is the only case with return value 0 or with
`prepared` set.  The answers of the init-sequence writes change neither. -/
theorem hx8394_prepare_linear (o : hw_outcomes) (ctx : hx8394)
    (h : ctx.prepared = false) :
    ((prepare_steps o ctx).map hw_call.kind =
      [hw_call.regulator_enable ctx.vcc 0] ++
      (match ctx.reset_gpio with
       | some gpio =>
         [gpiod_set_value_cansleep gpio 1, msleep 20,
          gpiod_set_value_cansleep gpio 0, msleep 100]
       | none => []) ++
      init_buffers.map (fun d => mipi_dsi_dcs_write_buffer d 0) ++
      [mipi_dsi_dcs_exit_sleep_mode 0, msleep 125,
       mipi_dsi_dcs_set_display_on 0, msleep 20]) ∧
    (o.regulator_enable < 0 →
      hx8394_prepare o ctx =
        ⟨o.regulator_enable, ctx, [hw_call.regulator_enable ctx.vcc o.regulator_enable]⟩) ∧
    (¬ o.regulator_enable < 0 → o.exit_sleep_mode ≠ 0 →
      (hx8394_prepare o ctx).ret = o.exit_sleep_mode ∧
      (hx8394_prepare o ctx).ctx = ctx ∧
      prepare_steps o ctx =
        (hx8394_prepare o ctx).calls ++
          [msleep 125, mipi_dsi_dcs_set_display_on o.set_display_on, msleep 20]) ∧
    (¬ o.regulator_enable < 0 → o.exit_sleep_mode = 0 → o.set_display_on ≠ 0 →
      (hx8394_prepare o ctx).ret = o.set_display_on ∧
      (hx8394_prepare o ctx).ctx = ctx ∧
      prepare_steps o ctx = (hx8394_prepare o ctx).calls ++ [msleep 20]) ∧
    (¬ o.regulator_enable < 0 → o.exit_sleep_mode = 0 → o.set_display_on = 0 →
      hx8394_prepare o ctx = ⟨0, { ctx with prepared := true }, prepare_steps o ctx⟩) ∧
    ((hx8394_prepare o ctx).ret = 0 ↔
      (¬ o.regulator_enable < 0 ∧ o.exit_sleep_mode = 0 ∧ o.set_display_on = 0)) ∧
    ((hx8394_prepare o ctx).ctx.prepared = true ↔
      (¬ o.regulator_enable < 0 ∧ o.exit_sleep_mode = 0 ∧ o.set_display_on = 0)) := by
  refine ⟨?_, ?_, ?_, ?_, ?_, ?_, ?_⟩
  · cases hg : ctx.reset_gpio <;>
      simp [prepare_steps, hg, hw_call.kind, init_sequence_kinds]
  · intro h1
    simp [hx8394_prepare, h, h1]
  · intro h1 h2
    simp [hx8394_prepare, prepare_steps, h, h1, h2]
  · intro h1 h2 h3
    simp [hx8394_prepare, prepare_steps, h, h1, h2, h3]
  · intro h1 h2 h3
    simp [hx8394_prepare, prepare_steps, h, h1, h2, h3]
  · exact prepare_ret_zero_iff o ctx h
  · exact prepare_prepared_iff o ctx h

/-- Witness for C12: the fresh panel is not prepared; with every call
succeeding, `hx8394_prepare` makes all steps, returns 0 and sets `prepared`. -/
theorem hx8394_prepare_linear_witness :
    fresh_panel.prepared = false ∧
    hx8394_prepare all_ok fresh_panel =
      ⟨0, { fresh_panel with prepared := true }, prepare_steps all_ok fresh_panel⟩ :=
  ⟨rfl, (hx8394_prepare_linear all_ok fresh_panel rfl).2.2.2.2.1
    (by decide) rfl rfl⟩

/-- C13: the panel operations are guarded against re-entry and idempotent.
`hx8394_prepare` on a prepared panel, `hx8394_unprepare` on an unprepared one,
`hx8394_enable` on an enabled one and `hx8394_disable` on a disabled one return
0, make no call and leave the driver context as it is.  Hence an operation
that returned 0 (for `hx8394_prepare`: all steps succeeded; the other three
always return 0), called once more, returns 0, changes nothing and makes no
call, so that two calls in a row leave the same context and the same calls as
one.  `hx8394_enable` and `hx8394_disable` make no call and change no field but
`enabled`. -/
theorem panel_ops_guarded :
    (∀ (o : hw_outcomes) (ctx : hx8394), ctx.prepared = true →
      hx8394_prepare o ctx = ⟨0, ctx, []⟩) ∧
    (∀ (o : hw_outcomes) (ctx : hx8394), ctx.prepared = false →
      hx8394_unprepare o ctx = ⟨0, ctx, []⟩) ∧
    (∀ ctx : hx8394, ctx.enabled = true → hx8394_enable ctx = ⟨0, ctx, []⟩) ∧
    (∀ ctx : hx8394, ctx.enabled = false → hx8394_disable ctx = ⟨0, ctx, []⟩) ∧
    (∀ (op : panel_op) (o1 o2 : hw_outcomes) (ctx : hx8394),
      (run_op op o1 ctx).ret = 0 →
        run_op op o2 (run_op op o1 ctx).ctx = ⟨0, (run_op op o1 ctx).ctx, []⟩ ∧
        run_ops [(op, o1), (op, o2)] ctx = run_ops [(op, o1)] ctx) ∧
    (∀ (o : hw_outcomes) (ctx : hx8394), (hx8394_unprepare o ctx).ret = 0) ∧
    (∀ ctx : hx8394,
      hx8394_enable ctx = ⟨0, { ctx with enabled := true }, []⟩ ∧
      hx8394_disable ctx = ⟨0, { ctx with enabled := false }, []⟩) := by
  have hprep : ∀ (o : hw_outcomes) (ctx : hx8394), ctx.prepared = true →
      hx8394_prepare o ctx = ⟨0, ctx, []⟩ := by
    intro o ctx h
    simp [hx8394_prepare, h]
  have hunprep : ∀ (o : hw_outcomes) (ctx : hx8394), ctx.prepared = false →
      hx8394_unprepare o ctx = ⟨0, ctx, []⟩ := by
    intro o ctx h
    simp [hx8394_unprepare, h]
  have hen : ∀ ctx : hx8394, ctx.enabled = true → hx8394_enable ctx = ⟨0, ctx, []⟩ := by
    intro ctx h
    simp [hx8394_enable, h]
  have hdis : ∀ ctx : hx8394, ctx.enabled = false → hx8394_disable ctx = ⟨0, ctx, []⟩ := by
    intro ctx h
    simp [hx8394_disable, h]
  have hunret : ∀ (o : hw_outcomes) (ctx : hx8394), (hx8394_unprepare o ctx).ret = 0 := by
    intro o ctx
    unfold hx8394_unprepare
    split <;> rfl
  have hsets : ∀ ctx : hx8394,
      hx8394_enable ctx = ⟨0, { ctx with enabled := true }, []⟩ ∧
      hx8394_disable ctx = ⟨0, { ctx with enabled := false }, []⟩ := by
    intro ctx
    cases ctx with
    | mk dev reset_gpio vcc iovcc prepared enabled =>
      cases enabled <;> simp [hx8394_enable, hx8394_disable]
  have hagain : ∀ (op : panel_op) (o1 o2 : hw_outcomes) (ctx : hx8394),
      (run_op op o1 ctx).ret = 0 →
        run_op op o2 (run_op op o1 ctx).ctx = ⟨0, (run_op op o1 ctx).ctx, []⟩ := by
    intro op o1 o2 ctx hret
    cases op with
    | disable =>
      simp only [run_op]
      apply hdis
      rw [(hsets ctx).2]
    | unprepare =>
      simp only [run_op]
      apply hunprep
      unfold hx8394_unprepare
      split
      · assumption
      · rfl
    | prepare =>
      simp only [run_op] at hret ⊢
      apply hprep
      by_cases hp : ctx.prepared = true
      · rw [hprep o1 ctx hp]
        exact hp
      · have hp2 : ctx.prepared = false := by simpa using hp
        exact (prepare_prepared_iff o1 ctx hp2).2 ((prepare_ret_zero_iff o1 ctx hp2).1 hret)
    | enable =>
      simp only [run_op]
      apply hen
      rw [(hsets ctx).1]
  refine ⟨hprep, hunprep, hen, hdis, ?_, hunret, hsets⟩
  intro op o1 o2 ctx hret
  refine ⟨hagain op o1 o2 ctx hret, ?_⟩
  simp [run_ops, hagain op o1 o2 ctx hret]

/-- Witness for C13: a prepared panel; `hx8394_prepare` on it returns 0, makes
no call and leaves it as it is, and so does a second `hx8394_prepare` after a
first one that succeeded on the fresh panel. -/
theorem panel_ops_guarded_witness :
    hx8394_prepare all_ok { fresh_panel with prepared := true } =
      ⟨0, { fresh_panel with prepared := true }, []⟩ ∧
    run_ops [(panel_op.prepare, all_ok), (panel_op.prepare, all_ok)] fresh_panel =
      run_ops [(panel_op.prepare, all_ok)] fresh_panel :=
  ⟨panel_ops_guarded.1 all_ok { fresh_panel with prepared := true } rfl,
    (panel_ops_guarded.2.2.2.2.1 panel_op.prepare all_ok all_ok fresh_panel
      (by decide)).2⟩

/-- C14 fails on the code: an `hx8394_prepare` that returns an error after the
regulator came up leaves `vcc` enabled.  On the fresh panel, with the
regulator enable returning 0 and exit sleep returning -5, `hx8394_prepare`
returns -5 and leaves `prepared = false` while one enable of `vcc` is
outstanding; a following successful `hx8394_prepare` sets `prepared` with two
enables outstanding, and the `hx8394_unprepare` after it leaves
`prepared = false` with one enable still outstanding. -/
theorem hx8394_prepare_error_keeps_vcc_enabled :
    (hx8394_prepare exit_sleep_fails fresh_panel).ret = -5 ∧
    (hx8394_prepare exit_sleep_fails fresh_panel).ctx.prepared = false ∧
    outstanding_enables fresh_panel.vcc
      (hx8394_prepare exit_sleep_fails fresh_panel).calls = 1 ∧
    (run_ops [(panel_op.prepare, exit_sleep_fails)] fresh_panel).1.prepared = false ∧
    outstanding_enables fresh_panel.vcc
      (run_ops [(panel_op.prepare, exit_sleep_fails)] fresh_panel).2 = 1 ∧
    (run_ops [(panel_op.prepare, exit_sleep_fails), (panel_op.prepare, all_ok)]
      fresh_panel).1.prepared = true ∧
    outstanding_enables fresh_panel.vcc
      (run_ops [(panel_op.prepare, exit_sleep_fails), (panel_op.prepare, all_ok)]
        fresh_panel).2 = 2 ∧
    (run_ops [(panel_op.prepare, exit_sleep_fails), (panel_op.prepare, all_ok),
      (panel_op.unprepare, all_ok)] fresh_panel).1.prepared = false ∧
    outstanding_enables fresh_panel.vcc
      (run_ops [(panel_op.prepare, exit_sleep_fails), (panel_op.prepare, all_ok),
        (panel_op.unprepare, all_ok)] fresh_panel).2 = 1 := by
  decide

end panel_hx8394f
